import Mathlib

/-!
# olaf_client: address validation, address classification and the stream handlers

A shallow embedding of `src/index.js`.

* JavaScript strings are Lean strings; `.length` counts UTF-16 code units (`jsLength`).
* Regular expressions are a small syntax tree with a derivative matcher; the
  patterns of the source are values of that type.
* The handlers are functions from the answers of the networking substrate (an
  environment record) to the list of effects they perform, in order.
-/

namespace OlafClient

deriving instance DecidableEq for Except

/-! ## Strings -/

/-- Length of a JavaScript string: the number of UTF-16 code units. -/
def jsLength (s : String) : Nat :=
  (s.toList.map fun c => if c.toNat < 65536 then 1 else 2).sum

/-- White space and line terminators removed by `String.prototype.trim`. -/
def isJsWhiteSpace (c : Char) : Bool :=
  let n := c.toNat
  (9 ≤ n && n ≤ 13) || n == 32 || n == 160 || n == 5760 || (8192 ≤ n && n ≤ 8202) ||
    n == 8232 || n == 8233 || n == 8239 || n == 8287 || n == 12288 || n == 65279

/-- The characters of `s.trim()`. -/
def trimChars (l : List Char) : List Char :=
  ((l.dropWhile isJsWhiteSpace).reverse.dropWhile isJsWhiteSpace).reverse

/-- The method `trim` of a string. -/
def jsTrim (s : String) : String :=
  String.mk (trimChars s.toList)

/-! ## Regular expressions -/

/-- Regular expressions over characters; a class is a list of inclusive ranges. -/
inductive Regex where
  | empty : Regex
  | eps : Regex
  | cls (ranges : List (Char × Char)) : Regex
  | seq (r s : Regex) : Regex
  | alt (r s : Regex) : Regex
  | star (r : Regex) : Regex
  deriving Repr

/-- Membership of a character in a class. A character outside the basic plane is two
surrogate code units for a pattern without the `u` flag, and no class of the source
contains a surrogate, so such a character is in no class. -/
def inClass (ranges : List (Char × Char)) (c : Char) : Bool :=
  c.toNat < 65536 && ranges.any fun r => r.1.toNat ≤ c.toNat && c.toNat ≤ r.2.toNat

namespace Regex

/-- Whether the expression accepts the empty string. -/
def nullable : Regex → Bool
  | empty => false
  | eps => true
  | cls _ => false
  | seq r s => r.nullable && s.nullable
  | alt r s => r.nullable || s.nullable
  | star _ => true

/-- Derivative of an expression by one character. -/
def deriv (c : Char) : Regex → Regex
  | empty => empty
  | eps => empty
  | cls ranges => if inClass ranges c then eps else empty
  | seq r s => if r.nullable then alt (seq (r.deriv c) s) (s.deriv c) else seq (r.deriv c) s
  | alt r s => alt (r.deriv c) (s.deriv c)
  | star r => seq (r.deriv c) (star r)

/-- Whether the expression accepts the whole list of characters. -/
def accepts (r : Regex) : List Char → Bool
  | [] => r.nullable
  | c :: cs => (r.deriv c).accepts cs

/-- The method `test` of a pattern `^r$`: the whole string is accepted. -/
def testAnchored (r : Regex) (s : String) : Bool :=
  r.accepts s.toList

/-- The method `match` of a pattern `^r`, as a truth value: some initial segment of the
string is accepted. -/
def matchAtStart (r : Regex) (s : String) : Bool :=
  s.toList.inits.any r.accepts

end Regex

/-! ## `validatePolkadotAddress` -/

/-- The class `[a-km-zA-HJ-NP-Z1-9]`. -/
def base58Class : Regex :=
  .cls [('a', 'k'), ('m', 'z'), ('A', 'H'), ('J', 'N'), ('P', 'Z'), ('1', '9')]

/-- The pattern `addressRegex` between its anchors:
`[1-6][a-km-zA-HJ-NP-Z1-9]*[a-km-zA-HJ-NP-Z1-9][a-km-zA-HJ-NP-Z1-9]*`. -/
def addressRegex : Regex :=
  .seq (.cls [('1', '6')]) (.seq (.star base58Class) (.seq base58Class (.star base58Class)))

/-- Message of the error thrown for a bad length. -/
def lengthErrorMessage : String :=
  "Invalid address length. SS58 addresses should be 47-48 characters long."

/-- Message of the error thrown for a bad format. -/
def formatErrorMessage : String :=
  "Invalid address format. SS58 addresses should start with 1-6 and contain only valid characters."

/-- The function `validatePolkadotAddress`: `true`, or the message of the thrown error. -/
def validatePolkadotAddress (address : String) : Except String Bool :=
  if address = "" || jsLength address < 47 || jsLength address > 48 then
    .error lengthErrorMessage
  else if !addressRegex.testAnchored address then
    .error formatErrorMessage
  else
    .ok true

/-! ## The claim's words for C1 -/

/-- One of the characters `1` to `6`. -/
def isLeadDigit (c : Char) : Prop :=
  '1' ≤ c ∧ c ≤ '6'

instance (c : Char) : Decidable (isLeadDigit c) := by
  unfold isLeadDigit
  infer_instance

/-- The approved alphabet in the words of the specification: the digits 1-9 and the
ASCII letters, without `0`, `O`, `I` and `l`. -/
def isApprovedChar (c : Char) : Prop :=
  (('1' ≤ c ∧ c ≤ '9') ∨ ('a' ≤ c ∧ c ≤ 'z') ∨ ('A' ≤ c ∧ c ≤ 'Z')) ∧
    c ≠ '0' ∧ c ≠ 'O' ∧ c ≠ 'I' ∧ c ≠ 'l'

instance (c : Char) : Decidable (isApprovedChar c) := by
  unfold isApprovedChar
  infer_instance

/-- The shape of a directory key in the words of the specification. -/
def IsDirectoryKey (s : String) : Prop :=
  (jsLength s = 47 ∨ jsLength s = 48) ∧ (∃ c ∈ s.toList.head?, isLeadDigit c) ∧
    ∀ c ∈ s.toList, isApprovedChar c

instance (s : String) : Decidable (IsDirectoryKey s) := by
  unfold IsDirectoryKey
  infer_instance

/-! ## Addresses and connections -/

/-- Code of the protocol `webrtc` in the protocol table of `@multiformats/multiaddr`:
the value of `protocols('webrtc').code`. -/
def WEBRTC_CODE : Nat := 281

/-- Code of the protocol `p2p-circuit` in the same table: the value of
`protocols('p2p-circuit').code`. -/
def P2P_CIRCUIT_CODE : Nat := 290

/-- A multiaddr, by what the program reads of it: `protoCodes()` and `toString()`. -/
structure Multiaddr where
  codes : List Nat
  text : String
  deriving DecidableEq, Repr

/-- A connection of the node, by its place in the order of opening and its `remoteAddr`. -/
structure Connection where
  id : Nat
  remoteAddr : Multiaddr
  deriving DecidableEq, Repr

/-- The function `isWebrtc`. -/
def isWebrtc (ma : Multiaddr) : Bool :=
  ma.codes.contains WEBRTC_CODE

/-- The function `getRelayConnection` on the list `node.getConnections()`. -/
def getRelayConnection (connections : List Connection) : Option Connection :=
  connections.find? fun conn => !conn.remoteAddr.codes.contains WEBRTC_CODE

/-- The listener of `self:peer:update`: the texts of the list items it shows, from
`node.getMultiaddrs()`. -/
def selfPeerUpdate (multiaddrs : List Multiaddr) : List String :=
  (multiaddrs.filter fun ma => isWebrtc ma).map fun ma => ma.text

/-- The direct-capable predicate in the words of the specification: the protocol codes
contain the code of WebRTC and do not contain the code of p2p-circuit. -/
def isDirectCapable (ma : Multiaddr) : Prop :=
  WEBRTC_CODE ∈ ma.codes ∧ P2P_CIRCUIT_CODE ∉ ma.codes

instance (ma : Multiaddr) : Decidable (isDirectCapable ma) := by
  unfold isDirectCapable
  infer_instance

/-! ## Values, errors and effects -/

/-- A thrown error: its `name` and its `message`. -/
structure JSError where
  name : String
  message : String
  deriving DecidableEq, Repr

/-- A failed `dialProtocol`: the error, and whether the timeout signal had fired. -/
structure DialFailure where
  err : JSError
  signalAborted : Bool
  deriving DecidableEq, Repr

/-- The value of a property of a parsed response. A number is kept by whether it is
non-zero and its decimal form, an array or object by its string form. -/
inductive JSVal where
  | undefined : JSVal
  | null : JSVal
  | bool (b : Bool) : JSVal
  | num (nonZero : Bool) (shown : String) : JSVal
  | str (s : String) : JSVal
  | object (shown : String) : JSVal
  deriving DecidableEq, Repr

namespace JSVal

/-- Truthiness of a value, as in a condition. -/
def truthy : JSVal → Bool
  | undefined => false
  | null => false
  | bool b => b
  | num nonZero _ => nonZero
  | str s => s != ""
  | object _ => true

/-- String form of a value inside a template literal. -/
def display : JSVal → String
  | undefined => "undefined"
  | null => "null"
  | bool b => if b then "true" else "false"
  | num _ shown => shown
  | str s => s
  | object shown => shown

end JSVal

/-- The result of `JSON.parse`: `null`, an object with its properties, or another value
(number, string, boolean, array), every named property of which is `undefined`. -/
inductive Parsed where
  | null : Parsed
  | other : Parsed
  | object (fields : List (String × JSVal)) : Parsed
  deriving DecidableEq, Repr

/-- An effect of a handler, in the order of execution. -/
inductive Event where
  | output (line : String) : Event
  | dialProtocol (addr : Option Multiaddr) (protocol : String) (timeoutMs : Nat) : Event
  | dial (addr : Multiaddr) (timeoutMs : Nat) : Event
  | write (stream : Nat) (bytes : List UInt8) : Event
  | read (stream : Option Nat) : Event
  | close (stream : Nat) : Event
  | readLoopStarted : Event
  deriving DecidableEq, Repr

namespace Event

/-- Whether the effect opens a stream. -/
def isDialProtocol : Event → Bool
  | dialProtocol _ _ _ => true
  | _ => false

/-- Whether the effect dials a peer. -/
def isDial : Event → Bool
  | dial _ _ => true
  | _ => false

/-- Whether the effect writes to a stream. -/
def isWrite : Event → Bool
  | write _ _ => true
  | _ => false

/-- Whether the effect touches the network: a dial, or a write, read or close of a stream. -/
def isNetwork : Event → Bool
  | output _ => false
  | readLoopStarted => false
  | _ => true

/-- Whether the effect closes the given stream. -/
def isCloseOf (stream : Nat) : Event → Bool
  | close s => s == stream
  | _ => false

end Event

/-- The answers of the networking substrate and of the library functions to the calls of
the handlers. -/
structure Substrate where
  /-- The list `node.getConnections()`. -/
  connections : List Connection
  /-- The list `node.getMultiaddrs()`. -/
  multiaddrs : List Multiaddr
  /-- Outcome of `node.dialProtocol(addr, protocol)`: the stream, or the failure. -/
  dialProtocol : Option Multiaddr → String → Except DialFailure Nat
  /-- Outcome of `node.dial(addr)`. -/
  dial : Multiaddr → Except JSError Unit
  /-- Outcome of `write` on a stream. -/
  write : Nat → List UInt8 → Except JSError Unit
  /-- Outcome of the one `read` of a request on a stream; `none` is the value `null`. -/
  read : Nat → Except JSError (Option (List UInt8))
  /-- Outcome of the n-th `close` of a stream. -/
  close : Nat → Nat → Except JSError Unit
  /-- The function `toString` of `uint8arrays`. -/
  toString : List UInt8 → String
  /-- The function `JSON.parse`. -/
  jsonParse : String → Except JSError Parsed
  /-- The function `multiaddr`. -/
  multiaddr : JSVal → Except JSError Multiaddr
  /-- Message of the `TypeError` for reading the named property of the named value. -/
  typeErrorMessage : String → String → String

/-- The named property of a parsed response that is not `null`; a missing property is
`undefined`. Reading a property of `null` throws, which the handlers treat before. -/
def Parsed.get (p : Parsed) (name : String) : JSVal :=
  match p with
  | .null => .undefined
  | .other => .undefined
  | .object fields =>
    match fields.find? fun f => f.1 == name with
    | some f => f.2
    | none => .undefined

/-- The function `fromString` of `uint8arrays`: the UTF-8 bytes of a string. -/
def fromString (s : String) : List UInt8 :=
  (s.toList.map String.utf8EncodeChar).flatten

/-- A hexadecimal digit in lower case. -/
def hexDigit (n : Nat) : Char :=
  if n < 10 then Char.ofNat (48 + n) else Char.ofNat (87 + n)

/-- The escape of one character inside a JSON string, as `JSON.stringify` writes it. -/
def jsonEscapeChar (c : Char) : List Char :=
  if c.toNat = 34 then [Char.ofNat 92, Char.ofNat 34]
  else if c.toNat = 92 then [Char.ofNat 92, Char.ofNat 92]
  else if c.toNat = 8 then [Char.ofNat 92, 'b']
  else if c.toNat = 12 then [Char.ofNat 92, 'f']
  else if c.toNat = 10 then [Char.ofNat 92, 'n']
  else if c.toNat = 13 then [Char.ofNat 92, 'r']
  else if c.toNat = 9 then [Char.ofNat 92, 't']
  else if c.toNat < 32 then
    [Char.ofNat 92, 'u', '0', '0', hexDigit (c.toNat / 16), hexDigit (c.toNat % 16)]
  else [c]

/-- A string as a JSON string literal. -/
def jsonQuote (s : String) : String :=
  String.mk (Char.ofNat 34 :: (s.toList.map jsonEscapeChar).flatten ++ [Char.ofNat 34])

/-- The text `JSON.stringify(kvPair)` of the store request with its properties `key` and `value`. -/
def stringifyKvPair (key value : String) : String :=
  "\x7b\"key\":" ++ jsonQuote key ++ ",\"value\":" ++ jsonQuote value ++ "\x7d"

/-- The text `JSON.stringify(query)` of the query request with its properties `action`
and `key`. -/
def stringifyQuery (key : String) : String :=
  "\x7b\"action\":\"get\",\"key\":" ++ jsonQuote key ++ "\x7d"

/-- Name of the chat protocol. -/
def CHAT_PROTOCOL : String := "/libp2p/examples/chat/1.0.0"

/-- Name of the store protocol. -/
def KV_PROTOCOL : String := "/libp2p/examples/kv/1.0.0"

/-- Name of the query protocol. -/
def KV_QUERY_PROTOCOL : String := "/libp2p/examples/kv-query/1.0.0"

/-! ## The store handler -/

/-- The `catch` of the store handler. -/
def storeCatch (err : JSError) : List Event :=
  [.output ("❌ Error deriving address or sending to relay: " ++ err.message)]

/-- The line of the inner `catch` of both directory handlers. -/
def parseErrorLine (e : JSError) : Event :=
  .output ("❌ Error parsing relay response: " ++ e.message)

/-- The statement `await stream.close()` inside the `try` of the store handler, as the
n-th close of the stream. -/
def closeInStore (env : Substrate) (stream n : Nat) : List Event :=
  .close stream ::
    match env.close stream n with
    | .error e => storeCatch e
    | .ok _ => []

/-- The store handler from the decoding of a response to its end. -/
def storeResponse (env : Substrate) (stream : Nat) (response : List UInt8) : List Event :=
  let responseText := env.toString response
  (match env.jsonParse responseText with
    | .error e => [parseErrorLine e]
    | .ok .null =>
      [parseErrorLine { name := "TypeError", message := env.typeErrorMessage "null" "success" }]
    | .ok parsed =>
      if (parsed.get "success").truthy then
        [.output "✅ Successfully stored SS58 address in relay"]
      else
        [.output ("❌ Failed to store in relay: " ++ (parsed.get "error").display)]) ++
    closeInStore env stream 0

/-- The first `find` of the store handler: a WebRTC address that is not a circuit address. -/
def findDirectWebrtc (multiaddrs : List Multiaddr) : Option Multiaddr :=
  multiaddrs.find? fun ma =>
    ma.codes.contains WEBRTC_CODE && !ma.codes.contains P2P_CIRCUIT_CODE

/-- The second `find` of the store handler, the fallback: any WebRTC address. -/
def findAnyWebrtc (multiaddrs : List Multiaddr) : Option Multiaddr :=
  multiaddrs.find? fun ma => ma.codes.contains WEBRTC_CODE

/-- The variable `webrtcMultiaddr` of the store handler after its fallback: the first
WebRTC address that is not a circuit address, or else the first WebRTC address. -/
def publishedAddress (multiaddrs : List Multiaddr) : Option Multiaddr :=
  match findDirectWebrtc multiaddrs with
  | some found => some found
  | none => findAnyWebrtc multiaddrs

/-- The store handler from the `write` of the request on. -/
def storeRequest (env : Substrate) (stream : Nat) (message : String) : List Event :=
  .write stream (fromString message) ::
    match env.write stream (fromString message) with
    | .error e => storeCatch e
    | .ok _ =>
      .read (some stream) ::
        match env.read stream with
        | .error e => storeCatch e
        | .ok none => [.output "❌ No response received from relay"]
        | .ok (some response) => storeResponse env stream response

/-- The store handler once the stream to the relay is open. -/
def storeOnStream (env : Substrate) (polkadotAddress : String) (stream : Nat) : List Event :=
  let multiaddrs := env.multiaddrs
  .output ("🔍 Available multiaddresses: " ++
      ", ".intercalate (multiaddrs.map fun ma => ma.text)) ::
    (if (findDirectWebrtc multiaddrs).isNone then
      [.output "⚠️  No direct WebRTC multiaddress found, trying circuit relay..."]
    else []) ++
      match publishedAddress multiaddrs with
      | none =>
        [.output "❌ No WebRTC multiaddress found. Cannot store address.",
          .output ("💡 Available addresses: " ++
            ", ".intercalate (multiaddrs.map fun ma => ma.text))] ++
          closeInStore env stream 0
      | some webrtcMultiaddr =>
        .output ("📝 Storing in relay: Key=" ++ polkadotAddress ++ ", Value=" ++
            webrtcMultiaddr.text) ::
          storeRequest env stream (stringifyKvPair polkadotAddress webrtcMultiaddr.text)

/-- Whether a trace closes the stream and touches the network no more afterwards. -/
def closedAtEnd (trace : List Event) (stream : Nat) : Bool :=
  match trace.dropWhile fun e => !e.isCloseOf stream with
  | [] => false
  | _ :: post => post.all fun e => !e.isNetwork

/-- Whether a trace never closes the stream. -/
def neverClosed (trace : List Event) (stream : Nat) : Bool :=
  trace.all fun e => !e.isCloseOf stream

/-- The handler `window['store-address-input'].onclick`, from the value of the input field. -/
def storeAddressInputOnclick (env : Substrate) (inputValue : String) : List Event :=
  let polkadotAddress := jsTrim inputValue
  if polkadotAddress = "" then
    [.output "Please enter a SS58 address"]
  else
    .output "🔐 Validating SS58 address..." ::
      match validatePolkadotAddress polkadotAddress with
      | .error message => storeCatch { name := "Error", message := message }
      | .ok _ =>
        [.output ("✅ Valid SS58 address: " ++ polkadotAddress),
          .output ("🔍 Address length: " ++ toString (jsLength polkadotAddress) ++
            " characters"),
          .output ("🔍 Address format check: " ++
            if (Regex.cls [('1', '6')]).matchAtStart polkadotAddress then "Valid format"
            else "Unexpected format")] ++
          match getRelayConnection env.connections with
          | none => [.output "No relay connection found. Please connect to a relay first."]
          | some relayConnection =>
            [.output "📤 Sending SS58 address to relay...",
              .dialProtocol (some relayConnection.remoteAddr) KV_PROTOCOL 5000] ++
              match env.dialProtocol (some relayConnection.remoteAddr) KV_PROTOCOL with
              | .error failure => storeCatch failure.err
              | .ok stream => storeOnStream env polkadotAddress stream

/-! ## The query handler -/

/-- The outer `catch` of the query handler. -/
def queryCatch (err : JSError) : List Event :=
  [.output ("❌ Error looking up peer or connecting: " ++ err.message)]

/-- The statement `await stream.close()` at the end of the `try` of the query handler, as
the n-th close of the stream. -/
def closeInQuery (env : Substrate) (stream n : Nat) : List Event :=
  .close stream ::
    match env.close stream n with
    | .error e => queryCatch e
    | .ok _ => []

/-- The `catch (dialError)` of the query handler. -/
def dialFailed (peerMultiaddr : JSVal) (dialError : JSError) : List Event :=
  if dialError.name = "AbortError" then
    [.output "⏰ Timed out connecting to peer"]
  else
    [.output ("❌ Failed to connect to peer: " ++ dialError.message),
      .output "💡 The peer might be offline or not reachable",
      .output "💡 Try copying the multiaddress and pasting it in the Remote MultiAddress field",
      .output ("💡 Multiaddress: " ++ peerMultiaddr.display)]

/-- The inner `try` of the found branch: the dial of the address of the response. -/
def dialFoundPeer (env : Substrate) (peerMultiaddr : JSVal) : List Event :=
  .output ("📡 Dialing peer: " ++ peerMultiaddr.display) ::
    match env.multiaddr peerMultiaddr with
    | .error e => dialFailed peerMultiaddr e
    | .ok ma =>
      .output ("📡 Parsed multiaddress: " ++ ma.text) ::
        (if ma.codes.contains P2P_CIRCUIT_CODE then
          [.output "⚠️  This is a circuit relay address. Connection might be slower."]
        else []) ++
        .dial ma 10000 ::
          match env.dial ma with
          | .error e => dialFailed peerMultiaddr e
          | .ok _ =>
            [.output "✅ Successfully connected to peer",
              .output "🎉 You can now send messages to this peer!"]

/-- The line of the found outcome. -/
def foundLine (value : JSVal) : Event :=
  .output ("✅ Found peer multiaddress: " ++ value.display)

/-- The line of the not-found outcome. -/
def notFoundLine (polkadotAddress : String) : Event :=
  .output ("❌ No peer found for SS58 address: " ++ polkadotAddress)

/-- The line of the rejected outcome. -/
def rejectedLine (error : JSVal) : Event :=
  .output ("❌ Query failed: " ++ error.display)

/-- The query handler from the decoding of a response to its end. -/
def queryResponse (env : Substrate) (polkadotAddress : String) (stream : Nat)
    (response : List UInt8) : List Event :=
  let responseText := env.toString response
  match env.jsonParse responseText with
  | .error e => parseErrorLine e :: closeInQuery env stream 0
  | .ok .null =>
    parseErrorLine { name := "TypeError", message := env.typeErrorMessage "null" "success" } ::
      closeInQuery env stream 0
  | .ok parsed =>
    if (parsed.get "success").truthy && (parsed.get "found").truthy then
      let peerMultiaddr := parsed.get "value"
      [foundLine peerMultiaddr, .output "🔗 Attempting to connect to peer...", .close stream] ++
        (match env.close stream 0 with
          | .error e => [parseErrorLine e]
          | .ok _ => dialFoundPeer env peerMultiaddr) ++
        closeInQuery env stream 1
    else if (parsed.get "success").truthy && !(parsed.get "found").truthy then
      [notFoundLine polkadotAddress,
        .output "💡 The address might not be registered or the peer might be offline"] ++
        closeInQuery env stream 0
    else
      rejectedLine (parsed.get "error") :: closeInQuery env stream 0

/-- The handler `window['connect-via-address'].onclick`, from the value of the input field. -/
def connectViaAddressOnclick (env : Substrate) (inputValue : String) : List Event :=
  let polkadotAddress := jsTrim inputValue
  if polkadotAddress = "" then
    [.output "Please enter a SS58 address"]
  else
    .output ("🔍 Looking up peer multiaddress for SS58 address: " ++ polkadotAddress) ::
      match getRelayConnection env.connections with
      | none => [.output "No relay connection found. Please connect to a relay first."]
      | some relayConnection =>
        .dialProtocol (some relayConnection.remoteAddr) KV_QUERY_PROTOCOL 5000 ::
          match env.dialProtocol (some relayConnection.remoteAddr) KV_QUERY_PROTOCOL with
          | .error failure => queryCatch failure.err
          | .ok stream =>
            let message := stringifyQuery polkadotAddress
            [.output ("🔍 Querying relay for key: " ++ polkadotAddress),
              .write stream (fromString message)] ++
              match env.write stream (fromString message) with
              | .error e => queryCatch e
              | .ok _ =>
                .read (some stream) ::
                  match env.read stream with
                  | .error e => queryCatch e
                  | .ok none =>
                    .output "❌ No response received from relay" :: closeInQuery env stream 0
                  | .ok (some response) => queryResponse env polkadotAddress stream response

/-! ## The chat session -/

/-- The variables `ma` and `chatStream` and the visibility of the send section. -/
structure NodeState where
  ma : Option Multiaddr
  sendSectionShown : Bool
  chatStream : Option Nat
  deriving DecidableEq, Repr

/-- The function `updateConnList`: the callback of `map` runs over the connections in
order; the second component is the list of the texts of the list items. -/
def updateConnList (st : NodeState) (connections : List Connection) : NodeState × List String :=
  (connections.foldl
      (fun s connection =>
        if connection.remoteAddr.codes.contains WEBRTC_CODE then
          { s with ma := some connection.remoteAddr, sendSectionShown := true }
        else s)
      st,
    connections.map fun connection => connection.remoteAddr.text)

/-- What one `read` of the chat stream gives: a message, `null` at the end of the stream,
or a thrown error. -/
inductive ReadOutcome where
  | data (bytes : List UInt8) : ReadOutcome
  | eof : ReadOutcome
  | failed (err : JSError) : ReadOutcome
  deriving DecidableEq, Repr

/-- How far a read loop got: it left the `while (true)` by a thrown error, or its next
read is still pending. -/
inductive LoopExit where
  | threw (err : JSError) : LoopExit
  | pending : LoopExit
  deriving DecidableEq, Repr

/-- The error thrown by `chatStream.read()` when `chatStream` is not set. -/
def noStreamError (env : Substrate) : JSError :=
  { name := "TypeError", message := env.typeErrorMessage "undefined" "read" }

/-- The error thrown by `buf.subarray()` when the read gave `null`. -/
def nullBufferError (env : Substrate) : JSError :=
  { name := "TypeError", message := env.typeErrorMessage "null" "subarray" }

/-- The loop `while (true)` of both chat readers, over the outcomes of the successive
reads: the state it leaves, its effects, and how far it got. -/
def readLoop (env : Substrate) (st : NodeState) :
    List ReadOutcome → NodeState × List Event × LoopExit
  | [] =>
    if st.chatStream.isNone then (st, [], .threw (noStreamError env))
    else (st, [.read st.chatStream], .pending)
  | .failed err :: _ =>
    if st.chatStream.isNone then (st, [], .threw (noStreamError env))
    else (st, [.read st.chatStream], .threw err)
  | .eof :: _ =>
    if st.chatStream.isNone then (st, [], .threw (noStreamError env))
    else (st, [.read st.chatStream], .threw (nullBufferError env))
  | .data bytes :: rest =>
    if st.chatStream.isNone then (st, [], .threw (noStreamError env))
    else
      ((readLoop env st rest).1,
        .read st.chatStream ::
          .output ("Received message \x27" ++ env.toString bytes ++ "\x27") ::
          (readLoop env st rest).2.1,
        (readLoop env st rest).2.2)

/-- The handler of `CHAT_PROTOCOL` for an inbound stream, over the outcomes of its reads. -/
def chatHandler (env : Substrate) (st : NodeState) (stream : Nat) (reads : List ReadOutcome) :
    NodeState × List Event × LoopExit :=
  readLoop env { st with chatStream := some stream } reads

/-- The handler `window.send.onclick` from the `write` on: the message is the trimmed
value of the input field. -/
def sendMessage (env : Substrate) (stream : Nat) (messageValue : String) : List Event :=
  let message := jsTrim messageValue
  [.output ("Sending message \x27" ++ message ++ "\x27"), .write stream (fromString message)] ++
    match env.write stream (fromString message) with
    | .error err => [.output ("Error sending message - " ++ err.message)]
    | .ok _ => []

/-- The handler `window.send.onclick`: the state it leaves and its effects. The read loop
it starts runs as a task of its own, `readLoop`. -/
def sendOnclick (env : Substrate) (st : NodeState) (messageValue : String) :
    NodeState × List Event :=
  match st.chatStream with
  | some stream => (st, sendMessage env stream messageValue)
  | none =>
    match env.dialProtocol st.ma CHAT_PROTOCOL with
    | .ok stream =>
      ({ st with chatStream := some stream },
        [.output "Opening chat stream", .dialProtocol st.ma CHAT_PROTOCOL 5000,
          .readLoopStarted] ++ sendMessage env stream messageValue)
    | .error failure =>
      (st,
        [.output "Opening chat stream", .dialProtocol st.ma CHAT_PROTOCOL 5000,
          .output (if failure.signalAborted then "Timed out opening chat stream"
            else "Opening chat stream failed - " ++ failure.err.message)])

/-! ## Sample data -/

/-- The relay address `HARDCODED_RELAY_ADDRESS`: ip4, tcp, ws, p2p. -/
def relayAddr : Multiaddr :=
  { codes := [4, 6, 477, 421],
    text := "/ip4/34.73.155.58/tcp/8080/ws/p2p/12D3KooWA1bysjrTACSWqf6q172inxvwKHUxAnBtVgaVDKMxpZtx" }

/-- A WebRTC address reached through the relay: ip4, tcp, ws, p2p, p2p-circuit, webrtc, p2p. -/
def circuitWebrtcAddr : Multiaddr :=
  { codes := [4, 6, 477, 421, 290, 281, 421],
    text := "/ip4/34.73.155.58/tcp/8080/ws/p2p/12D3KooWA1bysjrTACSWqf6q172inxvwKHUxAnBtVgaVDKMxpZtx/p2p-circuit/webrtc/p2p/12D3KooWPeer" }

/-- A WebRTC address without a circuit: ip4, udp, webrtc, p2p. -/
def directWebrtcAddr : Multiaddr :=
  { codes := [4, 273, 281, 421], text := "/ip4/1.2.3.4/udp/9/webrtc/p2p/12D3KooWPeer" }

/-- A well-formed directory key. -/
def sampleKey : String := "5GrwvaEF5zXb26Fz9rcQpDWS57CtERHpNehXCPcNoHGKutQY"

/-- A substrate with one relay connection, one advertised circuit address, and calls that
all succeed; the relay answers a store request with success. -/
def sampleEnv : Substrate :=
  { connections := [{ id := 0, remoteAddr := relayAddr }]
    multiaddrs := [circuitWebrtcAddr]
    dialProtocol := fun _ _ => .ok 1
    dial := fun _ => .ok ()
    write := fun _ _ => .ok ()
    read := fun _ => .ok (some [])
    close := fun _ _ => .ok ()
    toString := fun _ => ""
    jsonParse := fun _ => .ok (.object [("success", .bool true)])
    multiaddr := fun _ => .ok directWebrtcAddr
    typeErrorMessage := fun value name =>
      "Cannot read properties of " ++ value ++ " (reading \x27" ++ name ++ "\x27)" }

/-- A thrown error of a broken stream. -/
def streamError : JSError := { name := "Error", message := "stream reset" }

/-- The sample substrate with a failing `write`. -/
def writeFailEnv : Substrate :=
  { sampleEnv with write := fun _ _ => .error streamError }

/-- The sample substrate with a `read` that gives `null`. -/
def nullReadEnv : Substrate :=
  { sampleEnv with read := fun _ => .ok none }

/-- The sample substrate with a `dialProtocol` that times out. -/
def dialTimeoutEnv : Substrate :=
  { sampleEnv with
    dialProtocol := fun _ _ =>
      .error { err := { name := "AbortError", message := "The operation was aborted" },
               signalAborted := true } }

/-- A state without a chat stream. -/
def idleState : NodeState :=
  { ma := some directWebrtcAddr, sendSectionShown := true, chatStream := none }

/-- A state with the chat stream 7. -/
def activeState : NodeState :=
  { ma := some directWebrtcAddr, sendSectionShown := true, chatStream := some 7 }

/-- The sample substrate with a relay that answers a query with an address. -/
def foundEnv : Substrate :=
  { sampleEnv with
    jsonParse := fun _ =>
      .ok (.object [("success", .bool true), ("found", .bool true),
        ("value", .str "/ip4/1.2.3.4/udp/9/webrtc/p2p/12D3KooWPeer")]) }

/-- The sample substrate with a relay that rejects a query. -/
def rejectedEnv : Substrate :=
  { sampleEnv with
    jsonParse := fun _ =>
      .ok (.object [("success", .bool false), ("error", .str "unsupported action")]) }

/-- The sample substrate with a relay whose answer is the JSON text `null`. -/
def nullParseEnv : Substrate :=
  { sampleEnv with jsonParse := fun _ => .ok .null }

/-- The sample substrate with a relay that answers a query with an address, and a first
`close` of the stream that throws. -/
def closeFailEnv : Substrate :=
  { foundEnv with
    close := fun _ n => if n = 0 then .error streamError else .ok () }

end OlafClient

namespace OlafClient

/-! # Theorems -/

set_option maxRecDepth 100000

namespace Regex

theorem accepts_empty (l : List Char) : empty.accepts l = false := by
  induction l with
  | nil => rfl
  | cons c cs ih => simpa [accepts, deriv] using ih

theorem accepts_eps (l : List Char) : eps.accepts l = true ↔ l = [] := by
  cases l with
  | nil => simp [accepts, nullable]
  | cons c cs => simp [accepts, deriv, accepts_empty]

theorem accepts_cls (R : List (Char × Char)) (l : List Char) :
    (cls R).accepts l = true ↔ ∃ c, l = [c] ∧ inClass R c = true := by
  cases l with
  | nil => simp [accepts, nullable]
  | cons c cs =>
    simp only [accepts, deriv]
    by_cases h : inClass R c = true
    · simp [h, accepts_eps]
      constructor
      · rintro rfl; exact ⟨c, ⟨rfl, rfl⟩, h⟩
      · rintro ⟨d, ⟨rfl, rfl⟩, -⟩; rfl
    · simp [h, accepts_empty]

theorem accepts_alt (r s : Regex) (l : List Char) :
    (alt r s).accepts l = (r.accepts l || s.accepts l) := by
  induction l generalizing r s with
  | nil => rfl
  | cons c cs ih => simp [accepts, deriv, ih]

theorem accepts_seq (r s : Regex) (l : List Char) :
    (seq r s).accepts l = true ↔
      ∃ l1 l2, l = l1 ++ l2 ∧ r.accepts l1 = true ∧ s.accepts l2 = true := by
  induction l generalizing r s with
  | nil =>
    simp only [accepts, nullable, Bool.and_eq_true]
    constructor
    · rintro ⟨h1, h2⟩
      exact ⟨[], [], rfl, h1, h2⟩
    · rintro ⟨l1, l2, h, h1, h2⟩
      obtain ⟨rfl, rfl⟩ := List.append_eq_nil.mp h.symm
      exact ⟨h1, h2⟩
  | cons c cs ih =>
    simp only [accepts, deriv]
    by_cases hn : r.nullable = true
    · simp only [hn, if_true, accepts_alt, Bool.or_eq_true, ih]
      constructor
      · rintro (⟨l1, l2, rfl, h1, h2⟩ | h)
        · exact ⟨c :: l1, l2, rfl, h1, h2⟩
        · exact ⟨[], c :: cs, rfl, hn, h⟩
      · rintro ⟨l1, l2, h, h1, h2⟩
        cases l1 with
        | nil =>
          simp only [List.nil_append] at h
          subst h
          exact Or.inr h2
        | cons d l1 =>
          simp only [List.cons_append, List.cons.injEq] at h
          obtain ⟨rfl, rfl⟩ := h
          exact Or.inl ⟨l1, l2, rfl, h1, h2⟩
    · simp only [hn, Bool.false_eq_true, if_false, ih]
      constructor
      · rintro ⟨l1, l2, rfl, h1, h2⟩
        exact ⟨c :: l1, l2, rfl, h1, h2⟩
      · rintro ⟨l1, l2, h, h1, h2⟩
        cases l1 with
        | nil => exact absurd h1 hn
        | cons d l1 =>
          simp only [List.cons_append, List.cons.injEq] at h
          obtain ⟨rfl, rfl⟩ := h
          exact ⟨l1, l2, rfl, h1, h2⟩

theorem accepts_star_cls (R : List (Char × Char)) (l : List Char) :
    (star (cls R)).accepts l = true ↔ ∀ c ∈ l, inClass R c = true := by
  induction l with
  | nil => simp [accepts, nullable]
  | cons c cs ih =>
    simp only [accepts, deriv, List.forall_mem_cons]
    by_cases h : inClass R c = true
    · simp only [h, if_true, accepts_seq, accepts_eps, true_and]
      rw [← ih]
      constructor
      · rintro ⟨l1, l2, rfl, rfl, h2⟩; exact h2
      · intro h2; exact ⟨[], cs, rfl, rfl, h2⟩
    · simp [h, accepts_seq, accepts_empty]

end Regex

/-! ## Characters -/

theorem char_le_iff (a b : Char) : a ≤ b ↔ a.toNat ≤ b.toNat := by
  rw [Char.le_def]
  exact Iff.rfl

theorem char_eq_iff (a b : Char) : a = b ↔ a.toNat = b.toNat := by
  constructor
  · rintro rfl; rfl
  · intro h
    rw [← Char.ofNat_toNat a, ← Char.ofNat_toNat b, h]

theorem inClass_lead_iff (c : Char) : inClass [('1', '6')] c = true ↔ isLeadDigit c := by
  have h1 : ('1' : Char).toNat = 49 := rfl
  have h6 : ('6' : Char).toNat = 54 := rfl
  simp only [inClass, isLeadDigit, char_le_iff, List.any_cons, List.any_nil, Bool.or_false,
    Bool.and_eq_true, decide_eq_true_eq, h1, h6]
  omega

theorem inClass_base58_iff (c : Char) :
    inClass [('a', 'k'), ('m', 'z'), ('A', 'H'), ('J', 'N'), ('P', 'Z'), ('1', '9')] c = true ↔
      isApprovedChar c := by
  have ha : ('a' : Char).toNat = 97 := rfl
  have hk : ('k' : Char).toNat = 107 := rfl
  have hl : ('l' : Char).toNat = 108 := rfl
  have hm : ('m' : Char).toNat = 109 := rfl
  have hz : ('z' : Char).toNat = 122 := rfl
  have hA : ('A' : Char).toNat = 65 := rfl
  have hH : ('H' : Char).toNat = 72 := rfl
  have hI : ('I' : Char).toNat = 73 := rfl
  have hJ : ('J' : Char).toNat = 74 := rfl
  have hN : ('N' : Char).toNat = 78 := rfl
  have hO : ('O' : Char).toNat = 79 := rfl
  have hP : ('P' : Char).toNat = 80 := rfl
  have hZ : ('Z' : Char).toNat = 90 := rfl
  have h0 : ('0' : Char).toNat = 48 := rfl
  have h1 : ('1' : Char).toNat = 49 := rfl
  have h9 : ('9' : Char).toNat = 57 := rfl
  simp only [inClass, isApprovedChar, char_le_iff, char_eq_iff, ne_eq, List.any_cons,
    List.any_nil, Bool.or_false, Bool.and_eq_true, Bool.or_eq_true, decide_eq_true_eq,
    ha, hk, hl, hm, hz, hA, hH, hI, hJ, hN, hO, hP, hZ, h0, h1, h9]
  omega

theorem isApprovedChar_of_isLeadDigit (c : Char) (h : isLeadDigit c) : isApprovedChar c := by
  have h0 : ('0' : Char).toNat = 48 := rfl
  have h1 : ('1' : Char).toNat = 49 := rfl
  have h6 : ('6' : Char).toNat = 54 := rfl
  have h9 : ('9' : Char).toNat = 57 := rfl
  have hl : ('l' : Char).toNat = 108 := rfl
  have hI : ('I' : Char).toNat = 73 := rfl
  have hO : ('O' : Char).toNat = 79 := rfl
  have ha : ('a' : Char).toNat = 97 := rfl
  have hz : ('z' : Char).toNat = 122 := rfl
  have hA : ('A' : Char).toNat = 65 := rfl
  have hZ : ('Z' : Char).toNat = 90 := rfl
  simp only [isLeadDigit, isApprovedChar, char_le_iff, char_eq_iff, ne_eq,
    h0, h1, h6, h9, hl, hI, hO, ha, hz, hA, hZ] at h ⊢
  omega

theorem toNat_lt_of_isApprovedChar (c : Char) (h : isApprovedChar c) : c.toNat < 65536 := by
  have h1 : ('1' : Char).toNat = 49 := rfl
  have h9 : ('9' : Char).toNat = 57 := rfl
  have ha : ('a' : Char).toNat = 97 := rfl
  have hz : ('z' : Char).toNat = 122 := rfl
  have hA : ('A' : Char).toNat = 65 := rfl
  have hZ : ('Z' : Char).toNat = 90 := rfl
  simp only [isApprovedChar, char_le_iff, h1, h9, ha, hz, hA, hZ] at h
  omega

/-! ## The pattern of `validatePolkadotAddress` -/

theorem addressRegex_accepts_iff (l : List Char) :
    addressRegex.accepts l = true ↔
      ∃ c rest, l = c :: rest ∧ isLeadDigit c ∧ rest ≠ [] ∧ ∀ x ∈ rest, isApprovedChar x := by
  simp only [addressRegex, base58Class, Regex.accepts_seq, Regex.accepts_cls,
    Regex.accepts_star_cls, inClass_lead_iff, inClass_base58_iff]
  constructor
  · rintro ⟨_, _, rfl, ⟨c, rfl, hc⟩, l1, _, rfl, h1, _, l3, rfl, ⟨d, rfl, hd⟩, h3⟩
    refine ⟨c, l1 ++ ([d] ++ l3), rfl, hc, by simp, ?_⟩
    intro x hx
    simp only [List.mem_append, List.mem_singleton] at hx
    rcases hx with hx | rfl | hx
    · exact h1 x hx
    · exact hd
    · exact h3 x hx
  · rintro ⟨c, rest, rfl, hc, hne, hall⟩
    cases rest with
    | nil => exact absurd rfl hne
    | cons d tl =>
      refine ⟨[c], d :: tl, rfl, ⟨c, rfl, hc⟩, [], d :: tl, rfl, by simp, [d], tl, rfl,
        ⟨d, rfl, hall d (by simp)⟩, ?_⟩
      intro x hx
      exact hall x (by simp [hx])

theorem jsLength_eq_length (s : String) (h : ∀ c ∈ s.toList, c.toNat < 65536) :
    jsLength s = s.toList.length := by
  unfold jsLength
  generalize s.toList = l at h
  induction l with
  | nil => rfl
  | cons c cs ih =>
    have hc := h c (by simp)
    have := ih (fun x hx => h x (by simp [hx]))
    simp only [List.map_cons, List.sum_cons, List.length_cons, hc, if_true, this]
    omega

theorem length_le_jsLength (s : String) : s.toList.length ≤ jsLength s := by
  unfold jsLength
  generalize s.toList = l
  induction l with
  | nil => simp
  | cons c cs ih =>
    simp only [List.map_cons, List.sum_cons, List.length_cons]
    split <;> omega

/-- The function accepts exactly the strings of the shape `IsDirectoryKey`. -/
theorem validatePolkadotAddress_ok_iff (s : String) :
    validatePolkadotAddress s = .ok true ↔ IsDirectoryKey s := by
  unfold validatePolkadotAddress IsDirectoryKey Regex.testAnchored
  constructor
  · intro h
    split at h
    · cases h
    · rename_i hlen
      split at h
      · cases h
      · rename_i hre
        simp only [Bool.or_eq_true, decide_eq_true_eq, not_or, not_lt] at hlen
        have hre2 : addressRegex.accepts s.toList = true := by simpa using hre
        obtain ⟨c, rest, hl, hc, -, hall⟩ := (addressRegex_accepts_iff _).mp hre2
        refine ⟨by omega, ⟨c, by rw [hl]; rfl, hc⟩, ?_⟩
        intro x hx
        rw [hl] at hx
        rcases List.mem_cons.mp hx with rfl | hx
        · exact isApprovedChar_of_isLeadDigit _ hc
        · exact hall x hx
  · rintro ⟨hlen, ⟨c, hhead, hc⟩, hall⟩
    have hne : s ≠ "" := by
      rintro rfl
      simp [jsLength] at hlen
    have hlen2 := jsLength_eq_length s (fun x hx => toNat_lt_of_isApprovedChar x (hall x hx))
    have hacc : addressRegex.accepts s.toList = true := by
      rw [addressRegex_accepts_iff]
      cases hl : s.toList with
      | nil => rw [hl] at hhead; cases hhead
      | cons d rest =>
        rw [hl] at hhead hall hlen2
        simp only [List.head?_cons, Option.mem_def, Option.some.injEq] at hhead
        subst hhead
        refine ⟨d, rest, rfl, hc, ?_, fun x hx => hall x (by simp [hx])⟩
        rintro rfl
        simp at hlen2
        omega
    have h1 : ¬ (decide (s = "") || decide (jsLength s < 47) || decide (jsLength s > 48)) = true := by
      simp only [Bool.or_eq_true, decide_eq_true_eq, not_or, not_lt]
      exact ⟨⟨hne, by omega⟩, by omega⟩
    rw [if_neg h1, hacc]
    rfl

/-- Every string is either accepted or rejected with one of the two errors. -/
theorem validatePolkadotAddress_cases (s : String) :
    validatePolkadotAddress s = .ok true ∨
      validatePolkadotAddress s = .error lengthErrorMessage ∨
      validatePolkadotAddress s = .error formatErrorMessage := by
  unfold validatePolkadotAddress
  split
  · exact Or.inr (Or.inl rfl)
  · split
    · exact Or.inr (Or.inr rfl)
    · exact Or.inl rfl

/-- C1: `validatePolkadotAddress(s)` returns `true` exactly when `s` has length 47 or 48,
starts with one of `1`..`6` and consists of characters of the approved alphabet; every
other string, the empty one included, is rejected with an error. -/
theorem validatePolkadotAddress_spec (s : String) :
    (validatePolkadotAddress s = .ok true ↔ IsDirectoryKey s) ∧
      (¬ IsDirectoryKey s ↔ ∃ e, validatePolkadotAddress s = .error e) ∧
      ¬ IsDirectoryKey "" := by
  refine ⟨validatePolkadotAddress_ok_iff s, ?_, ?_⟩
  · rw [← validatePolkadotAddress_ok_iff]
    rcases validatePolkadotAddress_cases s with h | h | h <;> simp [h]
  · intro h
    have := h.1
    simp [jsLength] at this

/-! ## Address classification -/

theorem isWebrtc_eq_true_iff (ma : Multiaddr) : isWebrtc ma = true ↔ WEBRTC_CODE ∈ ma.codes := by
  simp [isWebrtc]

theorem updateConnList_shown (st : NodeState) (connections : List Connection) :
    (updateConnList st connections).1.sendSectionShown = true ↔
      st.sendSectionShown = true ∨ ∃ c ∈ connections, isWebrtc c.remoteAddr = true := by
  unfold updateConnList
  simp only
  induction connections generalizing st with
  | nil => simp
  | cons c cs ih =>
    rw [List.foldl_cons, ih]
    by_cases h : c.remoteAddr.codes.contains WEBRTC_CODE = true
    · have h2 : isWebrtc c.remoteAddr = true := h
      rw [if_pos h]
      simp only [List.mem_cons, exists_eq_or_imp, h2, true_or, or_true]
    · have h2 : ¬ isWebrtc c.remoteAddr = true := h
      rw [if_neg h]
      simp only [List.mem_cons, exists_eq_or_imp, h2, Bool.false_eq_true, false_or]

/-- C2, as stated, fails: an address with the codes of both p2p-circuit and WebRTC is
accepted by `isWebrtc` although it is not direct-capable. -/
theorem isWebrtc_circuit_counterexample :
    ¬ (isWebrtc circuitWebrtcAddr = true ↔ isDirectCapable circuitWebrtcAddr) := by
  decide

/-- C2, amended: `isWebrtc` is true exactly when the protocol codes contain the code of
WebRTC, whether or not they contain the code of p2p-circuit: it holds of every
direct-capable address and, beyond those, of exactly the addresses with both codes. The
listener of `self:peer:update` shows the addresses with the code of WebRTC, in order, and
`updateConnList` shows the send section once a connection has such a remote address. -/
theorem isWebrtc_spec (ma : Multiaddr) (multiaddrs : List Multiaddr) (st : NodeState)
    (connections : List Connection) :
    (isWebrtc ma = true ↔ WEBRTC_CODE ∈ ma.codes) ∧
      (isWebrtc ma = true ↔
        isDirectCapable ma ∨ (WEBRTC_CODE ∈ ma.codes ∧ P2P_CIRCUIT_CODE ∈ ma.codes)) ∧
      selfPeerUpdate multiaddrs =
        (multiaddrs.filter fun a => decide (WEBRTC_CODE ∈ a.codes)).map (fun a => a.text) ∧
      ((updateConnList st connections).1.sendSectionShown = true ↔
        st.sendSectionShown = true ∨ ∃ c ∈ connections, WEBRTC_CODE ∈ c.remoteAddr.codes) := by
  refine ⟨isWebrtc_eq_true_iff ma, ?_, ?_, ?_⟩
  · rw [isWebrtc_eq_true_iff]
    unfold isDirectCapable
    tauto
  · unfold selfPeerUpdate
    congr 1
    apply List.filter_congr
    intro a _
    simp [isWebrtc]
  · rw [updateConnList_shown]
    simp only [isWebrtc_eq_true_iff]

/-! ## `getRelayConnection` -/

/-- C9, as stated, fails: the only connection has a remote address that is not
direct-capable (it goes through a circuit), and `getRelayConnection` returns nothing. -/
theorem getRelayConnection_circuit_counterexample :
    getRelayConnection [{ id := 0, remoteAddr := circuitWebrtcAddr }] = none ∧
      ¬ ∀ c ∈ [({ id := 0, remoteAddr := circuitWebrtcAddr } : Connection)],
        isDirectCapable c.remoteAddr := by
  decide

/-- C9, amended: `getRelayConnection` returns the earliest connection, in the order of the
connection list, whose remote address lacks the code of WebRTC, and returns nothing exactly
when the remote address of every connection contains that code. -/
theorem getRelayConnection_spec (connections : List Connection) :
    (∀ c, getRelayConnection connections = some c ↔
      ∃ before after, connections = before ++ c :: after ∧
        WEBRTC_CODE ∉ c.remoteAddr.codes ∧ ∀ b ∈ before, WEBRTC_CODE ∈ b.remoteAddr.codes) ∧
      (getRelayConnection connections = none ↔
        ∀ c ∈ connections, WEBRTC_CODE ∈ c.remoteAddr.codes) := by
  unfold getRelayConnection
  constructor
  · intro c
    rw [List.find?_eq_some]
    constructor
    · rintro ⟨hc, before, after, rfl, hb⟩
      refine ⟨before, after, rfl, by simpa using hc, ?_⟩
      intro b hb2
      simpa using hb b hb2
    · rintro ⟨before, after, rfl, hc, hb⟩
      refine ⟨by simpa using hc, before, after, rfl, ?_⟩
      intro b hb2
      simpa using hb b hb2
  · rw [List.find?_eq_none]
    simp

/-! ## The chat session -/

theorem readLoop_state (env : Substrate) (st : NodeState) (reads : List ReadOutcome) :
    (readLoop env st reads).1 = st := by
  induction reads with
  | nil =>
    unfold readLoop
    split <;> rfl
  | cons outcome rest ih =>
    cases outcome with
    | data bytes =>
      unfold readLoop
      split
      · rfl
      · exact ih
    | eof =>
      unfold readLoop
      split <;> rfl
    | failed err =>
      unfold readLoop
      split <;> rfl

theorem readLoop_exits (env : Substrate) (st : NodeState) (reads : List ReadOutcome)
    (h : ∃ o ∈ reads, o = .eof ∨ ∃ err, o = .failed err) :
    ∃ err, (readLoop env st reads).2.2 = .threw err := by
  induction reads with
  | nil => simp at h
  | cons outcome rest ih =>
    cases outcome with
    | data bytes =>
      unfold readLoop
      split
      · exact ⟨_, rfl⟩
      · apply ih
        obtain ⟨o, ho, hcase⟩ := h
        rcases List.mem_cons.mp ho with rfl | ho
        · rcases hcase with h1 | ⟨err, h1⟩ <;> cases h1
        · exact ⟨o, ho, hcase⟩
    | eof =>
      unfold readLoop
      split <;> exact ⟨_, rfl⟩
    | failed err =>
      unfold readLoop
      split <;> exact ⟨_, rfl⟩

theorem sendMessage_no_dialProtocol (env : Substrate) (stream : Nat) (messageValue : String) :
    ∀ e ∈ sendMessage env stream messageValue, e.isDialProtocol = false := by
  intro e he
  unfold sendMessage at he
  simp only [List.mem_append, List.mem_cons, List.mem_singleton, List.not_mem_nil, or_false] at he
  rcases he with (rfl | rfl) | he
  · rfl
  · rfl
  · split at he
    · simp only [List.mem_singleton] at he
      subst he
      rfl
    · simp at he

/-- C6, as stated, fails: the inbound chat stream 7 ends at its first read, the read loop
exits, and `chatStream` is still set to that stream; the next send opens no stream. -/
theorem chatHandler_eof_counterexample :
    (∃ err, (chatHandler sampleEnv idleState 7 [.eof]).2.2 = .threw err) ∧
      (chatHandler sampleEnv idleState 7 [.eof]).1.chatStream ≠ none ∧
      ∀ e ∈ (sendOnclick sampleEnv (chatHandler sampleEnv idleState 7 [.eof]).1 "hi").2,
        e.isDialProtocol = false := by
  refine ⟨⟨_, rfl⟩, by decide, by decide⟩

/-- C6, amended: when a read of the chat stream ends the stream or fails, the read loop
(the one started by send and the one of the inbound handler) exits by the thrown error,
and `chatStream` stays set to the same stream: the next send opens no stream and writes
to that stream. -/
theorem readLoop_keeps_chatStream (env : Substrate) (st : NodeState) (stream : Nat)
    (reads : List ReadOutcome) (messageValue : String)
    (h : ∃ o ∈ reads, o = .eof ∨ ∃ err, o = .failed err) :
    (∃ err, (chatHandler env st stream reads).2.2 = .threw err) ∧
      (chatHandler env st stream reads).1.chatStream = some stream ∧
      (∃ err, (readLoop env (sendOnclick env st messageValue).1 reads).2.2 = .threw err) ∧
      (readLoop env (sendOnclick env st messageValue).1 reads).1 =
        (sendOnclick env st messageValue).1 ∧
      (∀ e ∈ (sendOnclick env (chatHandler env st stream reads).1 messageValue).2,
        e.isDialProtocol = false) ∧
      (sendOnclick env (chatHandler env st stream reads).1 messageValue).2 =
        sendMessage env stream messageValue := by
  have hst : (chatHandler env st stream reads).1 = { st with chatStream := some stream } :=
    readLoop_state env _ reads
  refine ⟨readLoop_exits env _ reads h, by rw [hst], readLoop_exits env _ reads h,
    readLoop_state env _ reads, ?_, ?_⟩
  · rw [hst]
    exact sendMessage_no_dialProtocol env stream messageValue
  · rw [hst]
    rfl

theorem readLoop_keeps_chatStream_witness :
    (∃ err, (chatHandler sampleEnv idleState 7 [.data [104, 105], .eof]).2.2 = .threw err) ∧
      (chatHandler sampleEnv idleState 7 [.data [104, 105], .eof]).1.chatStream = some 7 ∧
      (∃ err, (readLoop sampleEnv (sendOnclick sampleEnv idleState "hi").1
        [.data [104, 105], .eof]).2.2 = .threw err) ∧
      (readLoop sampleEnv (sendOnclick sampleEnv idleState "hi").1 [.data [104, 105], .eof]).1 =
        (sendOnclick sampleEnv idleState "hi").1 ∧
      (∀ e ∈ (sendOnclick sampleEnv
          (chatHandler sampleEnv idleState 7 [.data [104, 105], .eof]).1 "hi").2,
        e.isDialProtocol = false) ∧
      (sendOnclick sampleEnv (chatHandler sampleEnv idleState 7 [.data [104, 105], .eof]).1
        "hi").2 = sendMessage sampleEnv 7 "hi" :=
  readLoop_keeps_chatStream sampleEnv idleState 7 [.data [104, 105], .eof] "hi"
    ⟨.eof, by decide, Or.inl rfl⟩

/-- C7: in a state with `chatStream` set, a send makes no `dialProtocol` call, leaves the
state with its stream unchanged, and writes the UTF-8 bytes of the (trimmed) message to
that stream; a failed write is reported. -/
theorem sendOnclick_active (env : Substrate) (st : NodeState) (stream : Nat)
    (messageValue : String) (h : st.chatStream = some stream) :
    (sendOnclick env st messageValue).1 = st ∧
      (∀ e ∈ (sendOnclick env st messageValue).2, e.isDialProtocol = false) ∧
      Event.write stream (fromString (jsTrim messageValue)) ∈
        (sendOnclick env st messageValue).2 ∧
      (∀ s bytes, Event.write s bytes ∈ (sendOnclick env st messageValue).2 →
        s = stream ∧ bytes = fromString (jsTrim messageValue)) := by
  have hsend : sendOnclick env st messageValue = (st, sendMessage env stream messageValue) := by
    unfold sendOnclick
    rw [h]
  rw [hsend]
  refine ⟨rfl, sendMessage_no_dialProtocol env stream messageValue, ?_, ?_⟩
  · simp [sendMessage]
  · intro s bytes hmem
    simp only [sendMessage, List.mem_append, List.mem_cons, List.mem_singleton,
      List.not_mem_nil, or_false, Event.write.injEq] at hmem
    rcases hmem with (h1 | h1) | h1
    · cases h1
    · exact h1
    · split at h1
      · simp at h1
      · simp at h1

theorem sendOnclick_active_witness :
    (sendOnclick sampleEnv activeState " hi ").1 = activeState ∧
      (∀ e ∈ (sendOnclick sampleEnv activeState " hi ").2, e.isDialProtocol = false) ∧
      Event.write 7 (fromString (jsTrim " hi ")) ∈ (sendOnclick sampleEnv activeState " hi ").2 ∧
      (∀ s bytes, Event.write s bytes ∈ (sendOnclick sampleEnv activeState " hi ").2 →
        s = 7 ∧ bytes = fromString (jsTrim " hi ")) :=
  sendOnclick_active sampleEnv activeState 7 " hi " rfl

/-- C8: a send in a state without a chat stream whose `dialProtocol` fails leaves
`chatStream` unset, reports a timeout when the timeout signal has fired and the reason of
the failure otherwise, and writes nothing. -/
theorem sendOnclick_open_failure (env : Substrate) (st : NodeState) (messageValue : String)
    (failure : DialFailure) (h : st.chatStream = none)
    (hdial : env.dialProtocol st.ma CHAT_PROTOCOL = .error failure) :
    (sendOnclick env st messageValue).1 = st ∧
      (sendOnclick env st messageValue).1.chatStream = none ∧
      (sendOnclick env st messageValue).2 =
        [.output "Opening chat stream", .dialProtocol st.ma CHAT_PROTOCOL 5000,
          .output (if failure.signalAborted then "Timed out opening chat stream"
            else "Opening chat stream failed - " ++ failure.err.message)] ∧
      (∀ e ∈ (sendOnclick env st messageValue).2, e.isWrite = false) := by
  have hsend : sendOnclick env st messageValue =
      (st, [.output "Opening chat stream", .dialProtocol st.ma CHAT_PROTOCOL 5000,
        .output (if failure.signalAborted then "Timed out opening chat stream"
          else "Opening chat stream failed - " ++ failure.err.message)]) := by
    unfold sendOnclick
    rw [h]
    simp only [hdial]
  rw [hsend]
  refine ⟨rfl, h, rfl, ?_⟩
  intro e he
  simp only [List.mem_cons, List.mem_singleton, List.not_mem_nil, or_false] at he
  rcases he with rfl | rfl | rfl <;> rfl

theorem sendOnclick_open_failure_witness :
    (sendOnclick dialTimeoutEnv idleState "hi").1 = idleState ∧
      (sendOnclick dialTimeoutEnv idleState "hi").1.chatStream = none ∧
      (sendOnclick dialTimeoutEnv idleState "hi").2 =
        [.output "Opening chat stream", .dialProtocol idleState.ma CHAT_PROTOCOL 5000,
          .output "Timed out opening chat stream"] ∧
      (∀ e ∈ (sendOnclick dialTimeoutEnv idleState "hi").2, e.isWrite = false) :=
  sendOnclick_open_failure dialTimeoutEnv idleState "hi"
    { err := { name := "AbortError", message := "The operation was aborted" },
      signalAborted := true } rfl rfl

/-! ## The store handler -/

theorem closeInStore_eq (env : Substrate) (stream n : Nat) :
    ∃ post, closeInStore env stream n = .close stream :: post ∧
      ∀ e ∈ post, e.isNetwork = false := by
  unfold closeInStore
  split
  · exact ⟨_, rfl, by simp [storeCatch, Event.isNetwork]⟩
  · exact ⟨_, rfl, by simp⟩

theorem storeResponse_closes (env : Substrate) (stream : Nat) (response : List UInt8) :
    ∃ pre post, storeResponse env stream response = pre ++ .close stream :: post ∧
      (∀ e ∈ pre, e.isNetwork = false) ∧ ∀ e ∈ post, e.isNetwork = false := by
  obtain ⟨post, hpost, hnet⟩ := closeInStore_eq env stream 0
  unfold storeResponse
  rw [hpost]
  refine ⟨_, post, rfl, ?_, hnet⟩
  intro e he
  split at he
  · simp only [List.mem_singleton] at he
    subst he
    rfl
  · simp only [List.mem_singleton] at he
    subst he
    rfl
  · split at he
    · simp only [List.mem_singleton] at he
      subst he
      rfl
    · simp only [List.mem_singleton] at he
      subst he
      rfl

theorem validate_ok_ne_empty (key : String) (h : validatePolkadotAddress key = .ok true) :
    key ≠ "" := by
  rintro rfl
  revert h
  decide

/-- The trace of the store handler once validation, the relay lookup and the opening of
the stream have succeeded. -/
theorem store_opened (env : Substrate) (inputValue : String) (rc : Connection) (stream : Nat)
    (hv : validatePolkadotAddress (jsTrim inputValue) = .ok true)
    (hr : getRelayConnection env.connections = some rc)
    (hd : env.dialProtocol (some rc.remoteAddr) KV_PROTOCOL = .ok stream) :
    ∃ pre, storeAddressInputOnclick env inputValue =
        pre ++ storeOnStream env (jsTrim inputValue) stream ∧
      ∀ e ∈ pre, e.isCloseOf stream = false ∧ e.isWrite = false ∧ e ≠ .read (some stream) := by
  unfold storeAddressInputOnclick
  simp only [if_neg (validate_ok_ne_empty _ hv), hv, hr, hd]
  refine ⟨[_, _, _, _, _, _], rfl, ?_⟩
  intro e he
  simp only [List.mem_cons, List.mem_singleton, List.not_mem_nil, or_false] at he
  rcases he with rfl | rfl | rfl | rfl | rfl | rfl <;> exact ⟨rfl, rfl, fun h => by cases h⟩

theorem storeOnStream_published (env : Substrate) (key : String) (stream : Nat) (a : Multiaddr)
    (ha : publishedAddress env.multiaddrs = some a) :
    ∃ pre, storeOnStream env key stream =
        pre ++ storeRequest env stream (stringifyKvPair key a.text) ∧
      ∀ e ∈ pre, e.isNetwork = false := by
  unfold storeOnStream
  simp only [ha]
  split
  · refine ⟨[_, _, _], rfl, ?_⟩
    intro e he
    simp only [List.mem_cons, List.mem_singleton, List.not_mem_nil, or_false] at he
    rcases he with rfl | rfl | rfl <;> rfl
  · refine ⟨[_, _], rfl, ?_⟩
    intro e he
    simp only [List.mem_cons, List.mem_singleton, List.not_mem_nil, or_false] at he
    rcases he with rfl | rfl <;> rfl

theorem storeOnStream_unpublished (env : Substrate) (key : String) (stream : Nat)
    (h : publishedAddress env.multiaddrs = none) :
    ∃ pre, storeOnStream env key stream = pre ++ closeInStore env stream 0 ∧
      ∀ e ∈ pre, e.isNetwork = false := by
  unfold storeOnStream
  simp only [h]
  split
  · refine ⟨[_, _, _, _], rfl, ?_⟩
    intro e he
    simp only [List.mem_cons, List.mem_singleton, List.not_mem_nil, or_false] at he
    rcases he with rfl | rfl | rfl | rfl <;> rfl
  · refine ⟨[_, _, _], rfl, ?_⟩
    intro e he
    simp only [List.mem_cons, List.mem_singleton, List.not_mem_nil, or_false] at he
    rcases he with rfl | rfl | rfl <;> rfl

theorem isCloseOf_false_of_not_network (stream : Nat) (e : Event) (h : e.isNetwork = false) :
    e.isCloseOf stream = false := by
  cases e <;> simp_all [Event.isNetwork, Event.isCloseOf]

theorem isWrite_false_of_not_network (e : Event) (h : e.isNetwork = false) :
    e.isWrite = false := by
  cases e <;> simp_all [Event.isNetwork, Event.isWrite]

theorem closedAtEnd_append_close (pre post : List Event) (stream : Nat)
    (hpre : ∀ e ∈ pre, e.isCloseOf stream = false) (hpost : ∀ e ∈ post, e.isNetwork = false) :
    closedAtEnd (pre ++ .close stream :: post) stream = true := by
  induction pre with
  | nil =>
    simp only [closedAtEnd, List.nil_append, List.dropWhile_cons, Event.isCloseOf, beq_self_eq_true,
      Bool.not_true, Bool.false_eq_true, if_false, List.all_eq_true, Bool.not_eq_true']
    exact hpost
  | cons e pre ih =>
    have he := hpre e (by simp)
    have := ih (fun x hx => hpre x (by simp [hx]))
    simp only [closedAtEnd, List.cons_append, List.dropWhile_cons, he, Bool.not_false, if_true]
    exact this

theorem neverClosed_append (xs ys : List Event) (stream : Nat) :
    neverClosed (xs ++ ys) stream = (neverClosed xs stream && neverClosed ys stream) := by
  simp [neverClosed, List.all_append]

theorem neverClosed_of_forall (xs : List Event) (stream : Nat)
    (h : ∀ e ∈ xs, e.isCloseOf stream = false) : neverClosed xs stream = true := by
  simp only [neverClosed, List.all_eq_true, Bool.not_eq_true']
  exact h

theorem storeCatch_not_network (err : JSError) : ∀ e ∈ storeCatch err, e.isNetwork = false := by
  intro e he
  simp only [storeCatch, List.mem_singleton] at he
  subst he
  rfl

/-- C3: when the key, the trimmed value of the input field, fails `validatePolkadotAddress`,
the store handler touches the network in no way (no `dialProtocol`, no write, read or close)
and reports the failure: for the empty key by the request to enter an address, for any
other key by the message of the validation error. -/
theorem store_invalid_key_no_network (env : Substrate) (inputValue : String)
    (h : validatePolkadotAddress (jsTrim inputValue) ≠ .ok true) :
    (∀ e ∈ storeAddressInputOnclick env inputValue, e.isNetwork = false) ∧
      ((jsTrim inputValue = "" ∧
          storeAddressInputOnclick env inputValue = [.output "Please enter a SS58 address"]) ∨
        (jsTrim inputValue ≠ "" ∧
          ∃ message, validatePolkadotAddress (jsTrim inputValue) = .error message ∧
            storeAddressInputOnclick env inputValue =
              [.output "🔐 Validating SS58 address...",
                .output ("❌ Error deriving address or sending to relay: " ++ message)])) := by
  by_cases hempty : jsTrim inputValue = ""
  · have htrace : storeAddressInputOnclick env inputValue =
        [.output "Please enter a SS58 address"] := by
      unfold storeAddressInputOnclick
      simp only [if_pos hempty]
    refine ⟨?_, Or.inl ⟨hempty, htrace⟩⟩
    rw [htrace]
    intro e he
    simp only [List.mem_singleton] at he
    subst he
    rfl
  · have hmsg : ∃ message, validatePolkadotAddress (jsTrim inputValue) = .error message := by
      rcases validatePolkadotAddress_cases (jsTrim inputValue) with h1 | h1 | h1
      · exact absurd h1 h
      · exact ⟨_, h1⟩
      · exact ⟨_, h1⟩
    obtain ⟨message, hmessage⟩ := hmsg
    have htrace : storeAddressInputOnclick env inputValue =
        [.output "🔐 Validating SS58 address...",
          .output ("❌ Error deriving address or sending to relay: " ++ message)] := by
      unfold storeAddressInputOnclick
      simp only [if_neg hempty, hmessage, storeCatch]
    refine ⟨?_, Or.inr ⟨hempty, message, hmessage, htrace⟩⟩
    rw [htrace]
    intro e he
    simp only [List.mem_cons, List.mem_singleton, List.not_mem_nil, or_false] at he
    rcases he with rfl | rfl <;> rfl

theorem store_invalid_key_no_network_witness :
    (∀ e ∈ storeAddressInputOnclick sampleEnv " 5Grwva0 ", e.isNetwork = false) ∧
      ((jsTrim " 5Grwva0 " = "" ∧
          storeAddressInputOnclick sampleEnv " 5Grwva0 " =
            [.output "Please enter a SS58 address"]) ∨
        (jsTrim " 5Grwva0 " ≠ "" ∧
          ∃ message, validatePolkadotAddress (jsTrim " 5Grwva0 ") = .error message ∧
            storeAddressInputOnclick sampleEnv " 5Grwva0 " =
              [.output "🔐 Validating SS58 address...",
                .output ("❌ Error deriving address or sending to relay: " ++ message)])) :=
  store_invalid_key_no_network sampleEnv " 5Grwva0 " (by decide)

/-- C4, as stated, fails: the stream 1 to the relay is opened, the write of the request
throws, and the handler returns without a close of the stream. -/
theorem store_write_error_counterexample :
    Event.dialProtocol (some relayAddr) KV_PROTOCOL 5000 ∈
        storeAddressInputOnclick writeFailEnv sampleKey ∧
      writeFailEnv.dialProtocol (some relayAddr) KV_PROTOCOL = .ok 1 ∧
      neverClosed (storeAddressInputOnclick writeFailEnv sampleKey) 1 = true := by
  decide

/-- The path of a `null` response: the stream 1 to the relay is opened, the read gives
`null`, and the handler returns without a close of the stream. -/
theorem store_null_response_not_closed :
    Event.dialProtocol (some relayAddr) KV_PROTOCOL 5000 ∈
        storeAddressInputOnclick nullReadEnv sampleKey ∧
      nullReadEnv.dialProtocol (some relayAddr) KV_PROTOCOL = .ok 1 ∧
      neverClosed (storeAddressInputOnclick nullReadEnv sampleKey) 1 = true := by
  decide

/-- C4, amended: once the store handler has opened a stream to the relay, it closes the
stream, and touches the network no more afterwards, on the paths without a publishable
address and with a response that was read (success, failure or unparseable); on the paths
where the write or the read throws it returns without a close. (The path of a `null`
response is left out.) -/
theorem store_closes_stream (env : Substrate) (inputValue : String) (rc : Connection)
    (stream : Nat)
    (hv : validatePolkadotAddress (jsTrim inputValue) = .ok true)
    (hr : getRelayConnection env.connections = some rc)
    (hd : env.dialProtocol (some rc.remoteAddr) KV_PROTOCOL = .ok stream) :
    match publishedAddress env.multiaddrs with
    | none => closedAtEnd (storeAddressInputOnclick env inputValue) stream = true
    | some a =>
      match env.write stream (fromString (stringifyKvPair (jsTrim inputValue) a.text)) with
      | .error err =>
        neverClosed (storeAddressInputOnclick env inputValue) stream = true ∧
          (storeAddressInputOnclick env inputValue).getLast? =
            some (.output ("❌ Error deriving address or sending to relay: " ++ err.message)) ∧
          ∀ e ∈ storeAddressInputOnclick env inputValue, e ≠ .read (some stream)
      | .ok _ =>
        match env.read stream with
        | .error err =>
          neverClosed (storeAddressInputOnclick env inputValue) stream = true ∧
            (storeAddressInputOnclick env inputValue).getLast? =
              some (.output ("❌ Error deriving address or sending to relay: " ++ err.message))
        | .ok none => True
        | .ok (some _) => closedAtEnd (storeAddressInputOnclick env inputValue) stream = true := by
  obtain ⟨pre, htrace, hpre⟩ := store_opened env inputValue rc stream hv hr hd
  rw [htrace]
  have hpre1 : ∀ e ∈ pre, e.isCloseOf stream = false := fun e he => (hpre e he).1
  have hpreR : ∀ e ∈ pre, e ≠ .read (some stream) := fun e he => (hpre e he).2.2
  cases hp : publishedAddress env.multiaddrs with
  | none =>
    obtain ⟨pre2, h2, hpre2⟩ := storeOnStream_unpublished env (jsTrim inputValue) stream hp
    obtain ⟨post, hpost, hnet⟩ := closeInStore_eq env stream 0
    simp only
    rw [h2, hpost, ← List.append_assoc]
    apply closedAtEnd_append_close _ _ _ _ hnet
    intro e he
    rcases List.mem_append.mp he with he | he
    · exact hpre1 e he
    · exact isCloseOf_false_of_not_network stream e (hpre2 e he)
  | some a =>
    obtain ⟨pre2, h2, hpre2⟩ := storeOnStream_published env (jsTrim inputValue) stream a hp
    have hpre12 : ∀ e ∈ pre ++ pre2, e.isCloseOf stream = false := by
      intro e he
      rcases List.mem_append.mp he with he | he
      · exact hpre1 e he
      · exact isCloseOf_false_of_not_network stream e (hpre2 e he)
    simp only
    rw [h2, ← List.append_assoc]
    unfold storeRequest
    cases hw : env.write stream (fromString (stringifyKvPair (jsTrim inputValue) a.text)) with
    | error err =>
      simp only
      refine ⟨?_, ?_, ?_⟩
      · apply neverClosed_of_forall
        intro e he
        rcases List.mem_append.mp he with he | he
        · exact hpre12 e he
        · rcases List.mem_cons.mp he with rfl | he
          · rfl
          · exact isCloseOf_false_of_not_network stream e (storeCatch_not_network err e he)
      · simp [storeCatch]
      · intro e he
        rcases List.mem_append.mp he with he | he
        · rcases List.mem_append.mp he with he | he
          · exact hpreR e he
          · intro h
            have := hpre2 e he
            rw [h] at this
            cases this
        · rcases List.mem_cons.mp he with rfl | he
          · intro h
            cases h
          · intro h
            have := storeCatch_not_network err e he
            rw [h] at this
            cases this
    | ok u =>
      cases hread : env.read stream with
      | error err =>
        simp only
        refine ⟨?_, ?_⟩
        · apply neverClosed_of_forall
          intro e he
          rcases List.mem_append.mp he with he | he
          · exact hpre12 e he
          · rcases List.mem_cons.mp he with rfl | he
            · rfl
            · rcases List.mem_cons.mp he with rfl | he
              · rfl
              · exact isCloseOf_false_of_not_network stream e (storeCatch_not_network err e he)
        · simp [storeCatch]
      | ok r =>
        cases r with
        | none => trivial
        | some response =>
          obtain ⟨pre3, post, h3, hpre3, hpost⟩ := storeResponse_closes env stream response
          simp only
          rw [h3]
          have : pre ++ pre2 ++
              Event.write stream (fromString (stringifyKvPair (jsTrim inputValue) a.text)) ::
                Event.read (some stream) :: (pre3 ++ Event.close stream :: post) =
              (pre ++ pre2 ++
                [Event.write stream (fromString (stringifyKvPair (jsTrim inputValue) a.text)),
                  Event.read (some stream)] ++ pre3) ++ Event.close stream :: post := by
            simp
          rw [this]
          apply closedAtEnd_append_close _ _ _ _ hpost
          intro e he
          rcases List.mem_append.mp he with he | he
          · rcases List.mem_append.mp he with he | he
            · exact hpre12 e he
            · simp only [List.mem_cons, List.mem_singleton, List.not_mem_nil, or_false] at he
              rcases he with rfl | rfl <;> rfl
          · exact isCloseOf_false_of_not_network stream e (hpre3 e he)

theorem store_closes_stream_witness :
    closedAtEnd (storeAddressInputOnclick sampleEnv sampleKey) 1 = true ∧
      (neverClosed (storeAddressInputOnclick writeFailEnv sampleKey) 1 = true ∧
        (storeAddressInputOnclick writeFailEnv sampleKey).getLast? =
          some (.output "❌ Error deriving address or sending to relay: stream reset") ∧
        ∀ e ∈ storeAddressInputOnclick writeFailEnv sampleKey, e ≠ .read (some 1)) :=
  ⟨store_closes_stream sampleEnv sampleKey { id := 0, remoteAddr := relayAddr } 1
      (by decide) (by decide) (by decide),
    store_closes_stream writeFailEnv sampleKey { id := 0, remoteAddr := relayAddr } 1
      (by decide) (by decide) (by decide)⟩

theorem storeResponse_no_write (env : Substrate) (stream : Nat) (response : List UInt8) :
    ∀ e ∈ storeResponse env stream response, e.isWrite = false := by
  obtain ⟨pre, post, h, hpre, hpost⟩ := storeResponse_closes env stream response
  rw [h]
  intro e he
  rcases List.mem_append.mp he with he | he
  · exact isWrite_false_of_not_network e (hpre e he)
  · rcases List.mem_cons.mp he with rfl | he
    · rfl
    · exact isWrite_false_of_not_network e (hpost e he)

theorem storeRequest_write (env : Substrate) (stream : Nat) (message : String) (e : Event)
    (he : e ∈ storeRequest env stream message) (hw : e.isWrite = true) :
    e = .write stream (fromString message) := by
  unfold storeRequest at he
  rcases List.mem_cons.mp he with rfl | he
  · rfl
  · exfalso
    have : e.isWrite = false := by
      split at he
      · exact isWrite_false_of_not_network e (storeCatch_not_network _ e he)
      · rcases List.mem_cons.mp he with rfl | he
        · rfl
        · split at he
          · exact isWrite_false_of_not_network e (storeCatch_not_network _ e he)
          · simp only [List.mem_singleton] at he
            subst he
            rfl
          · exact storeResponse_no_write env stream _ e he
    rw [this] at hw
    cases hw

theorem storeOnStream_write (env : Substrate) (key : String) (stream : Nat) (e : Event)
    (he : e ∈ storeOnStream env key stream) (hw : e.isWrite = true) :
    ∃ a, publishedAddress env.multiaddrs = some a ∧
      e = .write stream (fromString (stringifyKvPair key a.text)) := by
  cases hp : publishedAddress env.multiaddrs with
  | none =>
    exfalso
    obtain ⟨pre, h, hpre⟩ := storeOnStream_unpublished env key stream hp
    obtain ⟨post, hpost, hnet⟩ := closeInStore_eq env stream 0
    rw [h, hpost] at he
    have : e.isWrite = false := by
      rcases List.mem_append.mp he with he | he
      · exact isWrite_false_of_not_network e (hpre e he)
      · rcases List.mem_cons.mp he with rfl | he
        · rfl
        · exact isWrite_false_of_not_network e (hnet e he)
    rw [this] at hw
    cases hw
  | some a =>
    obtain ⟨pre, h, hpre⟩ := storeOnStream_published env key stream a hp
    rw [h] at he
    rcases List.mem_append.mp he with he | he
    · have := isWrite_false_of_not_network e (hpre e he)
      rw [this] at hw
      cases hw
    · exact ⟨a, rfl, storeRequest_write env stream _ e he hw⟩

theorem store_write (env : Substrate) (inputValue : String) (e : Event)
    (he : e ∈ storeAddressInputOnclick env inputValue) (hw : e.isWrite = true) :
    ∃ stream a, publishedAddress env.multiaddrs = some a ∧
      e = .write stream (fromString (stringifyKvPair (jsTrim inputValue) a.text)) := by
  unfold storeAddressInputOnclick at he
  simp only at he
  split at he
  · simp only [List.mem_singleton] at he
    subst he
    cases hw
  · rcases List.mem_cons.mp he with rfl | he
    · cases hw
    · split at he
      · have := isWrite_false_of_not_network e (storeCatch_not_network _ e he)
        rw [this] at hw
        cases hw
      · rcases List.mem_append.mp he with he | he
        · simp only [List.mem_cons, List.mem_singleton, List.not_mem_nil, or_false] at he
          rcases he with rfl | rfl | rfl <;> cases hw
        · split at he
          · simp only [List.mem_singleton] at he
            subst he
            cases hw
          · rcases List.mem_append.mp he with he | he
            · simp only [List.mem_cons, List.mem_singleton, List.not_mem_nil, or_false] at he
              rcases he with rfl | rfl <;> cases hw
            · split at he
              · have := isWrite_false_of_not_network e (storeCatch_not_network _ e he)
                rw [this] at hw
                cases hw
              · rename_i stream _
                obtain ⟨a, ha, hea⟩ := storeOnStream_write env _ stream e he hw
                exact ⟨stream, a, ha, hea⟩

theorem publishedAddress_spec (multiaddrs : List Multiaddr) (a : Multiaddr)
    (h : publishedAddress multiaddrs = some a) :
    a ∈ multiaddrs ∧ WEBRTC_CODE ∈ a.codes ∧
      ((∃ b ∈ multiaddrs, isDirectCapable b) → isDirectCapable a) := by
  unfold publishedAddress at h
  split at h
  · rename_i found hfound
    cases h
    unfold findDirectWebrtc at hfound
    have hmem := List.mem_of_find?_eq_some hfound
    have hp := List.find?_some hfound
    simp at hp
    exact ⟨hmem, hp.1, fun _ => ⟨hp.1, hp.2⟩⟩
  · rename_i hnone
    unfold findDirectWebrtc at hnone
    unfold findAnyWebrtc at h
    have hmem := List.mem_of_find?_eq_some h
    have hp := List.find?_some h
    simp at hp
    refine ⟨hmem, hp, ?_⟩
    rintro ⟨b, hb, hb1, hb2⟩
    exfalso
    rw [List.find?_eq_none] at hnone
    apply hnone b hb
    simp
    exact ⟨hb1, hb2⟩

/-- C5, as stated, fails: the only advertised address goes through a circuit, no advertised
address is direct-capable, and the store handler writes the text of that circuit address
to the relay. -/
theorem store_publishes_circuit_counterexample :
    Event.write 1 (fromString (stringifyKvPair sampleKey circuitWebrtcAddr.text)) ∈
        storeAddressInputOnclick sampleEnv sampleKey ∧
      P2P_CIRCUIT_CODE ∈ circuitWebrtcAddr.codes ∧
      ∀ a ∈ sampleEnv.multiaddrs, ¬ isDirectCapable a := by
  decide

/-- C5, amended: every value that the store handler writes to the relay is the request
with the key and the string form of an address of the advertised list whose protocol codes
contain the code of WebRTC: the first direct-capable address when the list has one, and
otherwise, by the fallback, the first WebRTC address, which then goes through a circuit. -/
theorem store_writes_published (env : Substrate) (inputValue : String) (stream : Nat)
    (bytes : List UInt8)
    (h : Event.write stream bytes ∈ storeAddressInputOnclick env inputValue) :
    ∃ a ∈ env.multiaddrs,
      bytes = fromString (stringifyKvPair (jsTrim inputValue) a.text) ∧
      publishedAddress env.multiaddrs = some a ∧
      WEBRTC_CODE ∈ a.codes ∧
      ((∃ b ∈ env.multiaddrs, isDirectCapable b) → isDirectCapable a) ∧
      ((¬ ∃ b ∈ env.multiaddrs, isDirectCapable b) → P2P_CIRCUIT_CODE ∈ a.codes) := by
  obtain ⟨s, a, ha, hea⟩ := store_write env inputValue _ h rfl
  obtain ⟨hmem, hweb, hdirect⟩ := publishedAddress_spec env.multiaddrs a ha
  simp only [Event.write.injEq] at hea
  refine ⟨a, hmem, hea.2, ha, hweb, hdirect, ?_⟩
  intro hno
  by_contra hc
  exact hno ⟨a, hmem, hweb, hc⟩

theorem store_writes_published_witness :
    ∃ a ∈ sampleEnv.multiaddrs,
      fromString (stringifyKvPair sampleKey circuitWebrtcAddr.text) =
        fromString (stringifyKvPair (jsTrim sampleKey) a.text) ∧
      publishedAddress sampleEnv.multiaddrs = some a ∧
      WEBRTC_CODE ∈ a.codes ∧
      ((∃ b ∈ sampleEnv.multiaddrs, isDirectCapable b) → isDirectCapable a) ∧
      ((¬ ∃ b ∈ sampleEnv.multiaddrs, isDirectCapable b) → P2P_CIRCUIT_CODE ∈ a.codes) :=
  store_writes_published sampleEnv sampleKey 1
    (fromString (stringifyKvPair sampleKey circuitWebrtcAddr.text)) (by decide)

/-! ## The query handler -/

theorem append_ne_of_take_ne (a b x y : String) (n : Nat)
    (h : a.data.take n ≠ b.data.take n) (ha : n ≤ a.data.length) (hb : n ≤ b.data.length) :
    a ++ x ≠ b ++ y := by
  intro heq
  apply h
  have h2 := congrArg (fun s : String => s.data.take n) heq
  simp only [String.data_append] at h2
  rwa [List.take_append_of_le_length ha, List.take_append_of_le_length hb] at h2

theorem closeInQuery_no_dial (env : Substrate) (stream n : Nat) :
    ∀ e ∈ closeInQuery env stream n, e.isDial = false := by
  intro e he
  unfold closeInQuery at he
  rcases List.mem_cons.mp he with rfl | he
  · rfl
  · split at he
    · simp only [queryCatch, List.mem_singleton] at he
      subst he
      rfl
    · simp at he

theorem dialFailed_no_dial (value : JSVal) (err : JSError) :
    ∀ e ∈ dialFailed value err, e.isDial = false := by
  intro e he
  unfold dialFailed at he
  split at he
  · simp only [List.mem_singleton] at he
    subst he
    rfl
  · simp only [List.mem_cons, List.mem_singleton, List.not_mem_nil, or_false] at he
    rcases he with rfl | rfl | rfl | rfl <;> rfl

theorem dialFoundPeer_dial (env : Substrate) (value : JSVal) (e : Event)
    (he : e ∈ dialFoundPeer env value) (hd : e.isDial = true) :
    ∃ ma, env.multiaddr value = .ok ma ∧ e = .dial ma 10000 := by
  unfold dialFoundPeer at he
  rcases List.mem_cons.mp he with rfl | he
  · cases hd
  · cases hm : env.multiaddr value with
    | error err =>
      rw [hm] at he
      have := dialFailed_no_dial value err e he
      rw [this] at hd
      cases hd
    | ok ma =>
      rw [hm] at he
      simp only at he
      rcases List.mem_cons.mp he with rfl | he
      · cases hd
      · rcases List.mem_append.mp he with he | he
        · split at he
          · simp only [List.mem_singleton] at he
            subst he
            cases hd
          · simp at he
        · rcases List.mem_cons.mp he with rfl | he
          · exact ⟨ma, rfl, rfl⟩
          · exfalso
            have : e.isDial = false := by
              split at he
              · exact dialFailed_no_dial value _ e he
              · simp only [List.mem_cons, List.mem_singleton, List.not_mem_nil, or_false] at he
                rcases he with rfl | rfl <;> rfl
            rw [this] at hd
            cases hd

/-- The query handler on a response that does not parse. -/
theorem queryResponse_parse_error (env : Substrate) (key : String) (stream : Nat)
    (response : List UInt8) (err : JSError)
    (h : env.jsonParse (env.toString response) = .error err) :
    queryResponse env key stream response = parseErrorLine err :: closeInQuery env stream 0 := by
  unfold queryResponse
  simp only [h]

/-- The query handler on a response that parses to `null`: the read of `success` throws,
and the inner `catch` reports it like a response that does not parse. -/
theorem queryResponse_null (env : Substrate) (key : String) (stream : Nat)
    (response : List UInt8) (h : env.jsonParse (env.toString response) = .ok .null) :
    queryResponse env key stream response =
      parseErrorLine { name := "TypeError", message := env.typeErrorMessage "null" "success" } ::
        closeInQuery env stream 0 := by
  unfold queryResponse
  simp only [h]

/-- The query handler on a response that parses to a value other than `null`. -/
theorem queryResponse_parsed (env : Substrate) (key : String) (stream : Nat)
    (response : List UInt8) (parsed : Parsed)
    (h : env.jsonParse (env.toString response) = .ok parsed) (hnull : parsed ≠ .null) :
    queryResponse env key stream response =
      if (parsed.get "success").truthy && (parsed.get "found").truthy then
        [foundLine (parsed.get "value"), .output "🔗 Attempting to connect to peer...",
            .close stream] ++
          (match env.close stream 0 with
            | .error e => [parseErrorLine e]
            | .ok _ => dialFoundPeer env (parsed.get "value")) ++
          closeInQuery env stream 1
      else if (parsed.get "success").truthy && !(parsed.get "found").truthy then
        [notFoundLine key,
          .output "💡 The address might not be registered or the peer might be offline"] ++
          closeInQuery env stream 0
      else
        rejectedLine (parsed.get "error") :: closeInQuery env stream 0 := by
  cases parsed with
  | null => exact absurd rfl hnull
  | other =>
    unfold queryResponse
    simp only [h]
  | object fields =>
    unfold queryResponse
    simp only [h]

theorem queryResponse_dial (env : Substrate) (key : String) (stream : Nat)
    (response : List UInt8) (e : Event) (he : e ∈ queryResponse env key stream response)
    (hd : e.isDial = true) :
    ∃ parsed ma, env.jsonParse (env.toString response) = .ok parsed ∧ parsed ≠ .null ∧
      (parsed.get "success").truthy = true ∧ (parsed.get "found").truthy = true ∧
      env.multiaddr (parsed.get "value") = .ok ma ∧ e = .dial ma 10000 := by
  cases hp : env.jsonParse (env.toString response) with
  | error err =>
    exfalso
    rw [queryResponse_parse_error env key stream response err hp] at he
    have : e.isDial = false := by
      rcases List.mem_cons.mp he with rfl | he
      · rfl
      · exact closeInQuery_no_dial env stream 0 e he
    rw [this] at hd
    cases hd
  | ok parsed =>
    by_cases hnull : parsed = .null
    · exfalso
      subst hnull
      rw [queryResponse_null env key stream response hp] at he
      have : e.isDial = false := by
        rcases List.mem_cons.mp he with rfl | he
        · rfl
        · exact closeInQuery_no_dial env stream 0 e he
      rw [this] at hd
      cases hd
    · rw [queryResponse_parsed env key stream response parsed hp hnull] at he
      split at he
      · rename_i hcond
        simp only [Bool.and_eq_true] at hcond
        rcases List.mem_append.mp he with he | he
        · rcases List.mem_append.mp he with he | he
          · exfalso
            simp only [List.mem_cons, List.mem_singleton, List.not_mem_nil, or_false] at he
            rcases he with rfl | rfl | rfl <;> cases hd
          · split at he
            · exfalso
              simp only [List.mem_singleton] at he
              subst he
              cases hd
            · obtain ⟨ma, hma, hema⟩ := dialFoundPeer_dial env _ e he hd
              exact ⟨parsed, ma, rfl, hnull, hcond.1, hcond.2, hma, hema⟩
        · exfalso
          have := closeInQuery_no_dial env stream 1 e he
          rw [this] at hd
          cases hd
      · exfalso
        have : e.isDial = false := by
          split at he
          · rcases List.mem_append.mp he with he | he
            · simp only [List.mem_cons, List.mem_singleton, List.not_mem_nil, or_false] at he
              rcases he with rfl | rfl <;> rfl
            · exact closeInQuery_no_dial env stream 0 e he
          · rcases List.mem_cons.mp he with rfl | he
            · rfl
            · exact closeInQuery_no_dial env stream 0 e he
        rw [this] at hd
        cases hd

theorem connect_dial (env : Substrate) (inputValue : String) (e : Event)
    (he : e ∈ connectViaAddressOnclick env inputValue) (hd : e.isDial = true) :
    ∃ stream response, env.read stream = .ok (some response) ∧
      e ∈ queryResponse env (jsTrim inputValue) stream response := by
  unfold connectViaAddressOnclick at he
  simp only at he
  split at he
  · simp only [List.mem_singleton] at he
    subst he
    cases hd
  · rcases List.mem_cons.mp he with rfl | he
    · cases hd
    · split at he
      · simp only [List.mem_singleton] at he
        subst he
        cases hd
      · rcases List.mem_cons.mp he with rfl | he
        · cases hd
        · split at he
          · simp only [queryCatch, List.mem_singleton] at he
            subst he
            cases hd
          · rename_i stream _
            rcases List.mem_append.mp he with he | he
            · simp only [List.mem_cons, List.mem_singleton, List.not_mem_nil, or_false] at he
              rcases he with rfl | rfl <;> cases hd
            · split at he
              · simp only [queryCatch, List.mem_singleton] at he
                subst he
                cases hd
              · rcases List.mem_cons.mp he with rfl | he
                · cases hd
                · cases hread : env.read stream with
                  | error err =>
                    rw [hread] at he
                    simp only [queryCatch, List.mem_singleton] at he
                    subst he
                    cases hd
                  | ok r =>
                    rw [hread] at he
                    cases r with
                    | none =>
                      simp only at he
                      rcases List.mem_cons.mp he with rfl | he
                      · cases hd
                      · have := closeInQuery_no_dial env stream 0 e he
                        rw [this] at hd
                        cases hd
                    | some response => exact ⟨stream, response, hread, he⟩

/-- C10, as stated, fails: the relay answers with the JSON text `null`, which parses, and
the query handler reports a parse error, none of the three outcomes. -/
theorem query_null_counterexample :
    nullParseEnv.jsonParse (nullParseEnv.toString []) = .ok .null ∧
      connectViaAddressOnclick nullParseEnv sampleKey =
        [.output "🔍 Looking up peer multiaddress for SS58 address: 5GrwvaEF5zXb26Fz9rcQpDWS57CtERHpNehXCPcNoHGKutQY",
          .dialProtocol (some relayAddr) "/libp2p/examples/kv-query/1.0.0" 5000,
          .output "🔍 Querying relay for key: 5GrwvaEF5zXb26Fz9rcQpDWS57CtERHpNehXCPcNoHGKutQY",
          .write 1 (fromString
            "\x7b\"action\":\"get\",\"key\":\"5GrwvaEF5zXb26Fz9rcQpDWS57CtERHpNehXCPcNoHGKutQY\"\x7d"),
          .read (some 1),
          .output "❌ Error parsing relay response: Cannot read properties of null (reading \x27success\x27)",
          .close 1] := by
  decide

/-- C10, amended: the effects of the query handler on a response, in full. A response that
parses to a value other than `null` gets exactly one of three reports, by the truth of its
`success` and `found`: the found line with `value`, followed by the close of the stream and
then, when that close succeeds, the dial of `multiaddr(value)` with its own reports, and
when that close throws, the parse-error line and no dial; the not-found lines and no dial;
the rejected line with `error` and no dial. A response that does not parse, or that parses
to `null`, gets the parse-error line and no dial. Every branch ends with the close of the
stream. The whole handler is the request followed by these effects, and whenever it dials a
peer, a response was read and parsed with `success` and `found`, and the dialed address is
the one made from its `value`. -/
theorem query_outcomes (env : Substrate) (inputValue key : String) (stream : Nat)
    (response : List UInt8) :
    let closeTail : Nat → List Event := fun n =>
      .close stream ::
        match env.close stream n with
        | .error e => [.output ("❌ Error looking up peer or connecting: " ++ e.message)]
        | .ok _ => []
    let dialFailure : JSVal → JSError → List Event := fun value e =>
      if e.name = "AbortError" then [.output "⏰ Timed out connecting to peer"]
      else
        [.output ("❌ Failed to connect to peer: " ++ e.message),
          .output "💡 The peer might be offline or not reachable",
          .output "💡 Try copying the multiaddress and pasting it in the Remote MultiAddress field",
          .output ("💡 Multiaddress: " ++ value.display)]
    (match env.jsonParse (env.toString response) with
      | .error err =>
        queryResponse env key stream response =
          .output ("❌ Error parsing relay response: " ++ err.message) :: closeTail 0
      | .ok .null =>
        queryResponse env key stream response =
          .output ("❌ Error parsing relay response: " ++ env.typeErrorMessage "null" "success") ::
            closeTail 0
      | .ok parsed =>
        if (parsed.get "success").truthy then
          if (parsed.get "found").truthy then
            queryResponse env key stream response =
              [.output ("✅ Found peer multiaddress: " ++ (parsed.get "value").display),
                  .output "🔗 Attempting to connect to peer...", .close stream] ++
                (match env.close stream 0 with
                  | .error e => [.output ("❌ Error parsing relay response: " ++ e.message)]
                  | .ok _ =>
                    .output ("📡 Dialing peer: " ++ (parsed.get "value").display) ::
                      match env.multiaddr (parsed.get "value") with
                      | .error e => dialFailure (parsed.get "value") e
                      | .ok ma =>
                        .output ("📡 Parsed multiaddress: " ++ ma.text) ::
                          (if ma.codes.contains 290 then
                            [.output "⚠️  This is a circuit relay address. Connection might be slower."]
                          else []) ++
                          .dial ma 10000 ::
                            match env.dial ma with
                            | .error e => dialFailure (parsed.get "value") e
                            | .ok _ =>
                              [.output "✅ Successfully connected to peer",
                                .output "🎉 You can now send messages to this peer!"]) ++
                closeTail 1
          else
            queryResponse env key stream response =
              [.output ("❌ No peer found for SS58 address: " ++ key),
                  .output "💡 The address might not be registered or the peer might be offline"] ++
                closeTail 0
        else
          queryResponse env key stream response =
            .output ("❌ Query failed: " ++ (parsed.get "error").display) :: closeTail 0) ∧
      (∀ rc, jsTrim inputValue ≠ "" → getRelayConnection env.connections = some rc →
        env.dialProtocol (some rc.remoteAddr) KV_QUERY_PROTOCOL = .ok stream →
        env.write stream (fromString (stringifyQuery (jsTrim inputValue))) = .ok () →
        env.read stream = .ok (some response) →
        connectViaAddressOnclick env inputValue =
          [.output ("🔍 Looking up peer multiaddress for SS58 address: " ++ jsTrim inputValue),
              .dialProtocol (some rc.remoteAddr) "/libp2p/examples/kv-query/1.0.0" 5000,
              .output ("🔍 Querying relay for key: " ++ jsTrim inputValue),
              .write stream (fromString ("\x7b\"action\":\"get\",\"key\":" ++
                jsonQuote (jsTrim inputValue) ++ "\x7d")),
              .read (some stream)] ++
            queryResponse env (jsTrim inputValue) stream response) ∧
      (∀ e ∈ connectViaAddressOnclick env inputValue, e.isDial = true →
        ∃ s r parsed ma, env.read s = .ok (some r) ∧
          env.jsonParse (env.toString r) = .ok parsed ∧ parsed ≠ .null ∧
          (parsed.get "success").truthy = true ∧ (parsed.get "found").truthy = true ∧
          env.multiaddr (parsed.get "value") = .ok ma ∧ e = .dial ma 10000) ∧
      (∀ a b c d : String,
        "✅ Found peer multiaddress: " ++ a ≠ "❌ No peer found for SS58 address: " ++ b ∧
          "✅ Found peer multiaddress: " ++ a ≠ "❌ Query failed: " ++ c ∧
          "✅ Found peer multiaddress: " ++ a ≠ "❌ Error parsing relay response: " ++ d ∧
          "❌ No peer found for SS58 address: " ++ b ≠ "❌ Query failed: " ++ c ∧
          "❌ No peer found for SS58 address: " ++ b ≠ "❌ Error parsing relay response: " ++ d ∧
          "❌ Query failed: " ++ c ≠ "❌ Error parsing relay response: " ++ d) := by
  intro closeTail dialFailure
  refine ⟨?_, ?_, ?_, ?_⟩
  · cases hp : env.jsonParse (env.toString response) with
    | error err =>
      simp only
      rw [queryResponse_parse_error env key stream response err hp]
      rfl
    | ok parsed =>
      cases parsed with
      | null =>
        simp only
        rw [queryResponse_null env key stream response hp]
        rfl
      | other =>
        simp only
        rw [queryResponse_parsed env key stream response _ hp (by simp)]
        rfl
      | object fields =>
        simp only
        rw [queryResponse_parsed env key stream response _ hp (by simp)]
        cases (Parsed.object fields).get "success" |>.truthy <;>
          cases (Parsed.object fields).get "found" |>.truthy <;> rfl
  · intro rc hne hr hd hw hread
    unfold connectViaAddressOnclick
    simp only [if_neg hne, hr, hd, hw, hread]
    rfl
  · intro e he hd
    obtain ⟨s, r, hread, her⟩ := connect_dial env inputValue e he hd
    obtain ⟨parsed, ma, hp, hnull, hs, hf, hma, hema⟩ := queryResponse_dial env _ s r e her hd
    exact ⟨s, r, parsed, ma, hread, hp, hnull, hs, hf, hma, hema⟩
  · intro a b c d
    exact ⟨append_ne_of_take_ne _ _ _ _ 1 (by decide) (by decide) (by decide),
      append_ne_of_take_ne _ _ _ _ 1 (by decide) (by decide) (by decide),
      append_ne_of_take_ne _ _ _ _ 1 (by decide) (by decide) (by decide),
      append_ne_of_take_ne _ _ _ _ 3 (by decide) (by decide) (by decide),
      append_ne_of_take_ne _ _ _ _ 3 (by decide) (by decide) (by decide),
      append_ne_of_take_ne _ _ _ _ 3 (by decide) (by decide) (by decide)⟩

theorem query_outcomes_witness :
    connectViaAddressOnclick foundEnv sampleKey =
        [.output ("🔍 Looking up peer multiaddress for SS58 address: " ++ jsTrim sampleKey),
            .dialProtocol (some relayAddr) "/libp2p/examples/kv-query/1.0.0" 5000,
            .output ("🔍 Querying relay for key: " ++ jsTrim sampleKey),
            .write 1 (fromString ("\x7b\"action\":\"get\",\"key\":" ++
              jsonQuote (jsTrim sampleKey) ++ "\x7d")),
            .read (some 1)] ++
          queryResponse foundEnv (jsTrim sampleKey) 1 [] ∧
      queryResponse closeFailEnv sampleKey 1 [] =
        [.output "✅ Found peer multiaddress: /ip4/1.2.3.4/udp/9/webrtc/p2p/12D3KooWPeer",
          .output "🔗 Attempting to connect to peer...",
          .close 1,
          .output "❌ Error parsing relay response: stream reset",
          .close 1] ∧
      queryResponse foundEnv sampleKey 1 [] =
        [.output "✅ Found peer multiaddress: /ip4/1.2.3.4/udp/9/webrtc/p2p/12D3KooWPeer",
          .output "🔗 Attempting to connect to peer...",
          .close 1,
          .output "📡 Dialing peer: /ip4/1.2.3.4/udp/9/webrtc/p2p/12D3KooWPeer",
          .output "📡 Parsed multiaddress: /ip4/1.2.3.4/udp/9/webrtc/p2p/12D3KooWPeer",
          .dial directWebrtcAddr 10000,
          .output "✅ Successfully connected to peer",
          .output "🎉 You can now send messages to this peer!",
          .close 1] ∧
      queryResponse sampleEnv sampleKey 1 [] =
        [.output "❌ No peer found for SS58 address: 5GrwvaEF5zXb26Fz9rcQpDWS57CtERHpNehXCPcNoHGKutQY",
          .output "💡 The address might not be registered or the peer might be offline",
          .close 1] ∧
      queryResponse rejectedEnv sampleKey 1 [] =
        [.output "❌ Query failed: unsupported action", .close 1] :=
  ⟨(query_outcomes foundEnv sampleKey sampleKey 1 []).2.1 { id := 0, remoteAddr := relayAddr }
      (by decide) (by decide) rfl rfl rfl,
    (query_outcomes closeFailEnv sampleKey sampleKey 1 []).1,
    (query_outcomes foundEnv sampleKey sampleKey 1 []).1,
    (query_outcomes sampleEnv sampleKey sampleKey 1 []).1,
    (query_outcomes rejectedEnv sampleKey sampleKey 1 []).1⟩

end OlafClient
